import Mathlib

/-!
Verification development for the `blender_tools.py` module of
Multiple-Quadrotor-SLAM (Draft/PythonLibraries/blender_tools.py).

The module is a collection of helpers run inside Blender's scripting
console.  We shallowly embed the Blender scene state (objects, mesh
datablocks, selection, the active object, the current frame) and the
mathutils quaternion operations the module relies on, and then embed each
function of the module as a Lean function over that state.  Floating-point
numbers are modelled as exact reals; Blender's `FLT_EPSILON` guard in
`quat_to_axis_angle` is modelled as an exact zero test.
-/

open Real

noncomputable section

namespace BlenderTools

/-! ### Vectors -/

/-- A 3D vector (mathutils `Vector` restricted to length 3). -/
structure V3 where
  x : ℝ
  y : ℝ
  z : ℝ

namespace V3

@[ext] theorem ext_iff' {a b : V3} (hx : a.x = b.x) (hy : a.y = b.y) (hz : a.z = b.z) :
    a = b := by
  cases a; cases b; simp_all

instance : Neg V3 := ⟨fun v => ⟨-v.x, -v.y, -v.z⟩⟩

instance : SMul ℝ V3 := ⟨fun c v => ⟨c * v.x, c * v.y, c * v.z⟩⟩

@[simp] theorem neg_x (v : V3) : (-v).x = -v.x := rfl
@[simp] theorem neg_y (v : V3) : (-v).y = -v.y := rfl
@[simp] theorem neg_z (v : V3) : (-v).z = -v.z := rfl

@[simp] theorem smul_x (c : ℝ) (v : V3) : (c • v).x = c * v.x := rfl
@[simp] theorem smul_y (c : ℝ) (v : V3) : (c • v).y = c * v.y := rfl
@[simp] theorem smul_z (c : ℝ) (v : V3) : (c • v).z = c * v.z := rfl

/-- Dot product of a vector with itself (`dot_v3v3(v, v)`). -/
def sumSq (v : V3) : ℝ := v.x * v.x + v.y * v.y + v.z * v.z

/-- Euclidean norm (`len_v3`). -/
noncomputable def norm3 (v : V3) : ℝ := Real.sqrt v.sumSq

/-- Origin vector. -/
def zero : V3 := ⟨0, 0, 0⟩

/-- The vector as a Python `list`, as produced by `list(vector)`. -/
def toList (v : V3) : List ℝ := [v.x, v.y, v.z]

end V3

/-! ### Quaternions (mathutils `Quaternion`, stored `(w, x, y, z)`) -/

structure Quat where
  w : ℝ
  x : ℝ
  y : ℝ
  z : ℝ

namespace Quat

@[ext] theorem qext_iff' {a b : Quat} (hw : a.w = b.w) (hx : a.x = b.x) (hy : a.y = b.y)
    (hz : a.z = b.z) : a = b := by
  cases a; cases b; simp_all

/-- Hamilton product, as implemented by Blender's `mul_qt_qtqt`. -/
instance : Mul Quat :=
  ⟨fun p q =>
    ⟨p.w * q.w - p.x * q.x - p.y * q.y - p.z * q.z,
     p.w * q.x + p.x * q.w + p.y * q.z - p.z * q.y,
     p.w * q.y + p.y * q.w + p.z * q.x - p.x * q.z,
     p.w * q.z + p.z * q.w + p.x * q.y - p.y * q.x⟩⟩

@[simp] theorem mul_w (p q : Quat) :
    (p * q).w = p.w * q.w - p.x * q.x - p.y * q.y - p.z * q.z := rfl
@[simp] theorem mul_x (p q : Quat) :
    (p * q).x = p.w * q.x + p.x * q.w + p.y * q.z - p.z * q.y := rfl
@[simp] theorem mul_y (p q : Quat) :
    (p * q).y = p.w * q.y + p.y * q.w + p.z * q.x - p.x * q.z := rfl
@[simp] theorem mul_z (p q : Quat) :
    (p * q).z = p.w * q.z + p.z * q.w + p.x * q.y - p.y * q.x := rfl

/-- Quaternion conjugate (`conjugate_qt`). -/
def conj (q : Quat) : Quat := ⟨q.w, -q.x, -q.y, -q.z⟩

@[simp] theorem conj_w (q : Quat) : q.conj.w = q.w := rfl
@[simp] theorem conj_x (q : Quat) : q.conj.x = -q.x := rfl
@[simp] theorem conj_y (q : Quat) : q.conj.y = -q.y := rfl
@[simp] theorem conj_z (q : Quat) : q.conj.z = -q.z := rfl

/-- `dot_qtqt(q, q)`, the squared norm. -/
def normSq (q : Quat) : ℝ := q.w * q.w + q.x * q.x + q.y * q.y + q.z * q.z

instance : SMul ℝ Quat := ⟨fun c q => ⟨c * q.w, c * q.x, c * q.y, c * q.z⟩⟩

@[simp] theorem smul_w (c : ℝ) (q : Quat) : (c • q).w = c * q.w := rfl
@[simp] theorem qsmul_x (c : ℝ) (q : Quat) : (c • q).x = c * q.x := rfl
@[simp] theorem qsmul_y (c : ℝ) (q : Quat) : (c • q).y = c * q.y := rfl
@[simp] theorem qsmul_z (c : ℝ) (q : Quat) : (c • q).z = c * q.z := rfl

/-- mathutils `Quaternion.inverted()`: conjugate divided by `dot_qtqt(q, q)`. -/
def inverted (q : Quat) : Quat := (1 / q.normSq) • q.conj

/-- The identity quaternion (`unit_qt`). -/
def one : Quat := ⟨1, 0, 0, 0⟩

/-- Embed a vector as a pure quaternion. -/
def ofV3 (v : V3) : Quat := ⟨0, v.x, v.y, v.z⟩

/-- Vector part of a quaternion. -/
def vec (q : Quat) : V3 := ⟨q.x, q.y, q.z⟩

/-- mathutils `Quaternion * Vector` (Blender's `mul_qt_v3`): the vector part of
`q * (0, v) * conj q`. -/
def apply (q : Quat) (v : V3) : V3 := (q * ofV3 v * q.conj).vec

theorem apply_def (q : Quat) (v : V3) : q.apply v = (q * ofV3 v * q.conj).vec := rfl

end Quat

/-! ### The mathutils / Blender math layer -/

/-- Python `math.radians`. -/
noncomputable def radians (d : ℝ) : ℝ := d * π / 180

/-- Blender's `axis_angle_to_quat` (also the `mathutils.Quaternion(axis, angle)`
constructor): normalize the axis; a zero axis yields the unit quaternion,
otherwise the quaternion is `(cos (angle/2), sin (angle/2) · axis)`. -/
noncomputable def axisAngleToQuat (axis : V3) (angle : ℝ) : Quat :=
  let n := axis.norm3
  if n = 0 then Quat.one
  else
    let u : V3 := (1 / n) • axis
    ⟨Real.cos (angle / 2), Real.sin (angle / 2) * u.x,
     Real.sin (angle / 2) * u.y, Real.sin (angle / 2) * u.z⟩

/-- Blender's `quat_to_axis_angle` (mathutils `Quaternion.to_axis_angle()`),
for a normalized quaternion: half angle `acos w`, axis `(x,y,z)/sin(ha)`,
angle `2*ha`; the division guard `fabs(si) < FLT_EPSILON` is modelled as
an exact zero test. Returns `(axis, angle)`. -/
noncomputable def toAxisAngle (q : Quat) : V3 × ℝ :=
  let ha := Real.arccos q.w
  let si := Real.sin ha
  let si' := if si = 0 then 1 else si
  (⟨q.x / si', q.y / si', q.z / si'⟩, 2 * ha)

/-- Euler rotation orders of Blender's `rotation_mode` (plus the two
non-Euler modes). -/
inductive RotMode
  | QUATERNION | AXIS_ANGLE | XYZ | XZY | YXZ | YZX | ZXY | ZYX
  deriving DecidableEq, Repr

/-- Quaternion of a rotation by `a` about the global X axis. -/
noncomputable def qAxisX (a : ℝ) : Quat := ⟨Real.cos (a / 2), Real.sin (a / 2), 0, 0⟩
/-- Quaternion of a rotation by `a` about the global Y axis. -/
noncomputable def qAxisY (a : ℝ) : Quat := ⟨Real.cos (a / 2), 0, Real.sin (a / 2), 0⟩
/-- Quaternion of a rotation by `a` about the global Z axis. -/
noncomputable def qAxisZ (a : ℝ) : Quat := ⟨Real.cos (a / 2), 0, 0, Real.sin (a / 2)⟩

/-- mathutils `Euler.to_quaternion()` (Blender's `eulO_to_quat`): the
composition of the per-axis rotations in the order given by the rotation
mode.  For the two non-Euler modes (which never carry an Euler value) the
default XYZ order is used, mirroring `Euler.order`'s default. -/
noncomputable def eulerToQuat (m : RotMode) (e : V3) : Quat :=
  match m with
  | RotMode.XZY => qAxisY e.y * qAxisZ e.z * qAxisX e.x
  | RotMode.YXZ => qAxisZ e.z * qAxisX e.x * qAxisY e.y
  | RotMode.YZX => qAxisX e.x * qAxisZ e.z * qAxisY e.y
  | RotMode.ZXY => qAxisY e.y * qAxisX e.x * qAxisZ e.z
  | RotMode.ZYX => qAxisX e.x * qAxisY e.y * qAxisZ e.z
  | _ => qAxisZ e.z * qAxisY e.y * qAxisX e.x

/-! ### The Blender scene state -/

/-- A mesh datablock (an entry of `bpy.data.meshes`).  Faces are lists of
vertex indices (Blender N-gons). -/
structure BMesh where
  id : ℕ
  mname : String
  verts : List V3
  edges : List (ℕ × ℕ)
  faces : List (List ℕ)

/-- An affine world transform (`Object.matrix_world`; in Blender 2.69
`matrix_world * vertex.co` applies the linear part and adds the
translation column). -/
structure Affine where
  m00 : ℝ
  m01 : ℝ
  m02 : ℝ
  m10 : ℝ
  m11 : ℝ
  m12 : ℝ
  m20 : ℝ
  m21 : ℝ
  m22 : ℝ
  t0 : ℝ
  t1 : ℝ
  t2 : ℝ

/-- `matrix_world * vertex.co`. -/
def Affine.apply (a : Affine) (v : V3) : V3 :=
  ⟨a.m00 * v.x + a.m01 * v.y + a.m02 * v.z + a.t0,
   a.m10 * v.x + a.m11 * v.y + a.m12 * v.z + a.t1,
   a.m20 * v.x + a.m21 * v.y + a.m22 * v.z + a.t2⟩

/-- The identity world transform. -/
def Affine.id : Affine := ⟨1, 0, 0, 0, 1, 0, 0, 0, 1, 0, 0, 0⟩

/-- An entry of `bpy.data.objects`.  `id` is the object's identity (a
Python object reference); `in_scene` says whether the object is linked to
the current scene; `meshKey` is the id of the mesh datablock in
`ob.data` (for `"MESH"`-typed objects).  As in Blender, the object stores
all rotation representations, and `rotation_mode` selects the active
one. -/
structure BObj where
  id : ℕ
  name : String
  obType : String
  selected : Bool
  in_scene : Bool
  rotation_mode : RotMode
  rotation_quaternion : Quat
  rotation_axis_angle : ℝ × ℝ × ℝ × ℝ
  rotation_euler : V3
  location : V3
  matrix_world : Affine
  meshKey : Option ℕ
  show_keyframe_highlight : Bool

/-- The whole `bpy` state the module touches: the object and mesh
datablocks, the active object, the scene's current frame, counters for
fresh ids, plus logs of the externally visible calls the module makes
(keyframe insertions, `paths_calculate` invocations, PLY exports). -/
structure Scene where
  objects : List BObj
  meshes : List BMesh
  active : Option ℕ
  frame_current : ℤ
  nextId : ℕ
  nextMeshId : ℕ
  keyframes : List (ℤ × V3 × Quat)
  pathsCalc : List (ℤ × ℤ)
  plyExports : List (String × List V3)
  edit_mode : Bool

namespace Scene

/-- Look up an object by identity. -/
def getObj? (st : Scene) (i : ℕ) : Option BObj := st.objects.find? (fun ob => ob.id = i)

/-- `bpy.data.objects[name]` / `name in bpy.data.objects` (names are
unique in Blender's data, so `find?` returns the object of that name). -/
def byName? (st : Scene) (name : String) : Option BObj :=
  st.objects.find? (fun ob => ob.name = name)

/-- Update the object with identity `i` in place. -/
def updateObj (st : Scene) (i : ℕ) (f : BObj → BObj) : Scene :=
  { st with objects := st.objects.map (fun ob => if ob.id = i then f ob else ob) }

/-- `bpy.context.object` / `bpy.context.active_object`. -/
def activeOb (st : Scene) : Option BObj := st.active.bind st.getObj?

/-- `bpy.context.selected_objects`. -/
def selectedObs (st : Scene) : List BObj :=
  st.objects.filter (fun ob => ob.in_scene && ob.selected)

/-- `bpy.ops.object.select_all(action="DESELECT")`. -/
def deselectAll (st : Scene) : Scene :=
  { st with objects := st.objects.map (fun ob => { ob with selected := false }) }

/-- `ob.select = True` (by object identity). -/
def selectObj (st : Scene) (i : ℕ) : Scene :=
  st.updateObj i (fun ob => { ob with selected := true })

/-- The ids of the objects. -/
def objIds (st : Scene) : List ℕ := st.objects.map (fun ob => ob.id)

/-- The ids of the mesh datablocks. -/
def meshIds (st : Scene) : List ℕ := st.meshes.map (fun m => m.id)

/-- Look up a mesh datablock by id. -/
def getMesh? (st : Scene) (k : ℕ) : Option BMesh := st.meshes.find? (fun m => m.id = k)

/-- `ob.data.vertices` for a mesh object. -/
def obDataVerts (st : Scene) (ob : BObj) : List V3 :=
  match ob.meshKey with
  | some k => ((st.getMesh? k).map BMesh.verts).getD []
  | none => []

/-- A new camera object as produced by `bpy.ops.object.camera_add()`:
fresh identity, default name, default transform (Blender's default
rotation mode is XYZ Euler), linked to the scene, selected. -/
def freshCamera (i : ℕ) : BObj :=
  { id := i, name := "Camera", obType := "CAMERA", selected := true, in_scene := true,
    rotation_mode := RotMode.XYZ, rotation_quaternion := Quat.one,
    rotation_axis_angle := (0, 0, 1, 0), rotation_euler := V3.zero,
    location := V3.zero, matrix_world := Affine.id, meshKey := none,
    show_keyframe_highlight := false }

/-- `bpy.ops.object.camera_add()`: deselect everything, link a fresh
selected camera to the scene and make it active.  Returns the new
object's id. -/
def cameraAdd (st : Scene) : Scene × ℕ :=
  let st := st.deselectAll
  ({ st with objects := st.objects ++ [freshCamera st.nextId],
             active := some st.nextId, nextId := st.nextId + 1 }, st.nextId)

end Scene

/-- Blender converts the stored rotation to a quaternion on demand: the
representation selected by `rotation_mode`, as a quaternion
(`BKE_rotMode_change_values`' source value). -/
def obQuatOfMode (ob : BObj) : Quat :=
  match ob.rotation_mode with
  | RotMode.QUATERNION => ob.rotation_quaternion
  | RotMode.AXIS_ANGLE =>
      axisAngleToQuat ⟨ob.rotation_axis_angle.2.1, ob.rotation_axis_angle.2.2.1,
        ob.rotation_axis_angle.2.2.2⟩ ob.rotation_axis_angle.1
  | m => eulerToQuat m ob.rotation_euler

/-- Assigning `ob.rotation_mode` converts the current rotation to the new
representation (`BKE_rotMode_change_values`).  The module only ever
assigns the `"AXIS_ANGLE"` and `"QUATERNION"` modes, so only those two
targets are modelled; an Euler target keeps the stored Euler value. -/
def setRotationMode (ob : BObj) (m : RotMode) : BObj :=
  match m with
  | RotMode.QUATERNION =>
      { ob with rotation_mode := m, rotation_quaternion := obQuatOfMode ob }
  | RotMode.AXIS_ANGLE =>
      let aa := toAxisAngle (obQuatOfMode ob)
      { ob with rotation_mode := m,
                rotation_axis_angle := (aa.2, aa.1.x, aa.1.y, aa.1.z) }
  | _ => { ob with rotation_mode := m }

/-- The empty interactive scene. -/
def scene0 : Scene :=
  { objects := [], meshes := [], active := none, frame_current := 1, nextId := 0,
    nextMeshId := 0, keyframes := [], pathsCalc := [], plyExports := [],
    edit_mode := false }

/-! ### `get_objects` (blender_tools.py lines 17-36) -/

/-- `get_objects(by_selection, name_starts_with, name_ends_with)`:
pairs `(ob.name, ob)` of the mesh objects with the given name prefix and
suffix, drawn from the selection or from the scene, sorted by name
(Python's `sorted`; tuple comparison only reaches the second component on
equal names, which cannot happen for Blender's uniquely named objects, so
sorting by name models it). -/
def get_objects (st : Scene) (by_selection : Bool) (name_starts_with : String)
    (name_ends_with : String) : List (String × BObj) :=
  let objects := if by_selection then st.selectedObs
                 else st.objects.filter (fun ob => ob.in_scene)
  List.insertionSort (fun a b => a.1 ≤ b.1)
    ((objects.filter (fun ob => ob.name.startsWith name_starts_with &&
        ob.name.endsWith name_ends_with && ob.obType == "MESH")).map
      (fun ob => (ob.name, ob)))

/-! ### `print_pose` (lines 56-73)

`print_pose` itself only prints.  The values it derives depend on the
repository's `transforms` module and on OpenCV, neither of which is under
`src/`, so they are modelled from the spec. -/

/-- Modelled from the spec: `transforms.axis_and_angle_from_rvec(v)` (the
`transforms` module is not in `src/`) returns the axis-angle of the
rotation vector, i.e. the unit axis `v/|v|` and the angle `|v|`. -/
def axisAndAngleFromRvec (v : V3) : V3 × ℝ := ((1 / v.norm3) • v, v.norm3)

/-- The axis `print_pose` prints: the axis of `-rvec` (line 67). -/
def print_pose_axis (rvec : V3) : V3 := (axisAndAngleFromRvec (-rvec)).1

/-- The angle `print_pose` prints: the angle of `-rvec` (line 67). -/
def print_pose_angle (rvec : V3) : ℝ := (axisAndAngleFromRvec (-rvec)).2

/-- Modelled from the spec: the position `print_pose` prints,
`-R^(-1) * t` with `R^(-1) = cv2.Rodrigues(-rvec)[0]` (line 73); the
rotation by the rotation vector `-rvec` is represented by the equivalent
unit-quaternion conjugation. -/
def print_pose_pos (rvec tvec : V3) : V3 :=
  -((axisAngleToQuat (print_pose_axis rvec) (print_pose_angle rvec)).apply tvec)

/-! ### `create_camera_pose` (lines 75-108) -/

/-- Lines 97-108: assign the pose to the camera object.  Setting
`rotation_mode` converts between representations, so the final
`"QUATERNION"` switch turns the just-assigned axis-angle into a
quaternion, which line 108 multiplies by
`Quaternion((1.0, 0.0, 0.0), radians(180.0))`. -/
def poseAssign (ob : BObj) (axis : V3) (angle : ℝ) (pos : V3) : BObj :=
  let ob := setRotationMode ob RotMode.AXIS_ANGLE
  let ob := { ob with rotation_axis_angle := (angle, axis.x, axis.y, axis.z) }
  let ob := { ob with location := pos }
  let ob := setRotationMode ob RotMode.QUATERNION
  { ob with rotation_quaternion :=
      ob.rotation_quaternion * axisAngleToQuat ⟨1, 0, 0⟩ (radians 180) }

/-- `create_camera_pose(name, axis, angle, pos)`.  The `angle` argument is
subscripted once (`angle[0]`) in the source, the scalar it carries is
modelled directly.  Reuses the object named `name` when it is a camera,
otherwise `camera_add` plus rename. -/
def create_camera_pose (st : Scene) (name : String) (axis : V3) (angle : ℝ)
    (pos : V3) : Scene :=
  let hit := match st.byName? name with
    | some ob0 => if ob0.obType = "CAMERA" then some ob0.id else none
    | none => none
  match hit with
  | some i => st.updateObj i (fun ob => poseAssign ob axis angle pos)
  | none =>
      let p := st.cameraAdd
      let st := p.1.updateObj p.2 (fun ob => { ob with name := name })
      st.updateObj p.2 (fun ob => poseAssign ob axis angle pos)

/-! ### `extract_current_pose` (lines 110-131) -/

/-- The Python exceptions relevant to this module. -/
inductive PyErr
  | attributeError | assertionError
  deriving DecidableEq, Repr

/-- Lines 116-122: read the current object's rotation as a quaternion.
The `else` branch asserts that the remaining rotation mode is one of the
six Euler orders before converting. -/
def extractObQuat (ob : BObj) : Except PyErr Quat :=
  if ob.rotation_mode = RotMode.QUATERNION then
    Except.ok ob.rotation_quaternion
  else if ob.rotation_mode = RotMode.AXIS_ANGLE then
    Except.ok (axisAngleToQuat
      ⟨ob.rotation_axis_angle.2.1, ob.rotation_axis_angle.2.2.1,
       ob.rotation_axis_angle.2.2.2⟩ ob.rotation_axis_angle.1)
  else if ob.rotation_mode ∈ [RotMode.XYZ, RotMode.XZY, RotMode.YXZ,
      RotMode.YZX, RotMode.ZXY, RotMode.ZYX] then
    Except.ok (eulerToQuat ob.rotation_mode ob.rotation_euler)
  else Except.error PyErr.assertionError

/-- Line 125: `q *= Quaternion((1.0, 0.0, 0.0), radians(180.0))`. -/
def extractQ2 (q : Quat) : Quat := q * axisAngleToQuat ⟨1, 0, 0⟩ (radians 180)

/-- Lines 116-131 applied to one object: the rvec/tvec pair
`([c * -angle for c in axis], list(q.inverted() * (-ob.location)))`. -/
def extractPoseOfOb (ob : BObj) : Except PyErr (List ℝ × List ℝ) :=
  (extractObQuat ob).map (fun q0 =>
    let q := extractQ2 q0
    let aa := toAxisAngle q
    ([aa.1.x * -aa.2, aa.1.y * -aa.2, aa.1.z * -aa.2],
     (q.inverted.apply (-ob.location)).toList))

/-- `extract_current_pose` over an explicit context read: the host hands
either the current object or a failure, which the function does not
handle. -/
def extract_current_pose_ctx (c : Except PyErr BObj) :
    Except PyErr (List ℝ × List ℝ) :=
  match c with
  | Except.error e => Except.error e
  | Except.ok ob => extractPoseOfOb ob

/-- `extract_current_pose()`: reads `bpy.context.object`; when there is no
active object the attribute accesses on `None` raise `AttributeError`. -/
def extract_current_pose (st : Scene) : Except PyErr (List ℝ × List ℝ) :=
  extract_current_pose_ctx
    (match st.activeOb with
     | none => Except.error PyErr.attributeError
     | some ob => Except.ok ob)

/-! ### `create_cam_trajectory` (lines 133-179) -/

/-- Python truthiness of the `framenrs` argument (`None` and `[]` are
falsy). -/
def pyTruthyFramenrs : Option (List ℤ) → Bool
  | none => false
  | some l => !l.isEmpty

/-- Lines 162-168: assign one trajectory node to the camera: location,
TUM quaternion `(qx, qy, qz, qw)` stored as `[qw, qx, qy, qz]`, then the
OpenCV-to-Blender conversion
`*= Quaternion((1.0, 0.0, 0.0), radians(180.0))`. -/
def trajAssign (ob : BObj) (location : V3) (quaternion : ℝ × ℝ × ℝ × ℝ) : BObj :=
  let ob := { ob with location := location }
  let ob := { ob with rotation_quaternion :=
      ⟨quaternion.2.2.2, quaternion.1, quaternion.2.1, quaternion.2.2.1⟩ }
  { ob with rotation_quaternion :=
      ob.rotation_quaternion * axisAngleToQuat ⟨1, 0, 0⟩ (radians 180) }

/-- `bpy.ops.anim.keyframe_insert_menu(type="BUILTIN_KSI_LocRot")`:
record a keyframe for object `i` at the current frame with its current
location and rotation. -/
def keyframeInsertLocRot (st : Scene) (i : ℕ) : Scene :=
  match st.getObj? i with
  | some ob => { st with keyframes :=
      st.keyframes ++ [(st.frame_current, ob.location, ob.rotation_quaternion)] }
  | none => st

/-- One iteration of the loop at lines 159-170 (`p` is the enumerated
`(i, (location, quaternion))` pair): set the current frame
(`framenrs[i] if framenrs else i + 1`), assign the node, insert the
keyframe. -/
def trajStep (i : ℕ) (framenrs : Option (List ℤ)) (st : Scene)
    (p : ℕ × V3 × (ℝ × ℝ × ℝ × ℝ)) : Scene :=
  let st := { st with frame_current :=
      if pyTruthyFramenrs framenrs then (framenrs.getD []).getD p.1 0
      else (p.1 : ℤ) + 1 }
  let st := st.updateObj i (fun ob => trajAssign ob p.2.1 p.2.2)
  keyframeInsertLocRot st i

/-- Lines 146-154 of `create_cam_trajectory`: reuse the camera named
`name` (deselect everything, select it, make it active), or add a fresh
camera and rename it.  Returns the state and the camera's id. -/
def trajCamSetup (st : Scene) (name : String) : Scene × ℕ :=
  let hit := match st.byName? name with
    | some ob0 => if ob0.obType = "CAMERA" then some ob0.id else none
    | none => none
  match hit with
  | some i =>
      let st := st.deselectAll
      let st := st.selectObj i
      ({ st with active := some i }, i)
  | none =>
      let p := st.cameraAdd
      (p.1.updateObj p.2 (fun ob => { ob with name := name }), p.2)

/-- `create_cam_trajectory(name, locations, quaternions, start_frame,
framenrs)`. -/
def create_cam_trajectory (st : Scene) (name : String) (locations : List V3)
    (quaternions : List (ℝ × ℝ × ℝ × ℝ)) (start_frame : ℤ)
    (framenrs : Option (List ℤ)) : Scene :=
  let frame_current_backup := st.frame_current
  -- lines 146-154: reuse or create the camera
  let p := trajCamSetup st name
  let st := p.1.updateObj p.2 (fun ob => setRotationMode ob RotMode.QUATERNION)
  -- lines 159-170: keyframe loop over zip(locations, quaternions)
  let st := ((locations.zip quaternions).enum).foldl (trajStep p.2 framenrs) st
  -- lines 173-177: motion-path visualization
  let st := st.updateObj p.2 (fun ob =>
    { ob with show_keyframe_highlight := pyTruthyFramenrs framenrs })
  let st :=
    if pyTruthyFramenrs framenrs then
      { st with pathsCalc := st.pathsCalc ++
          [((framenrs.getD []).getD 0 0, ((framenrs.getD []).getLast?).getD 0)] }
    else
      { st with pathsCalc := st.pathsCalc ++
          [(start_frame, start_frame + locations.length)] }
  -- line 179: restore the original frame number
  { st with frame_current := frame_current_backup }

/-! ### `create_mesh` (lines 196-236) -/

/-- `create_mesh(name, coords, connect, edges)`: create a fresh mesh
datablock; reuse the object named `name` when it is a mesh (swapping its
data and removing the old datablock), otherwise create and link a new
object; place the object at the origin and fill the mesh with
`from_pydata(coords, edges, [])` (with `me.update(calc_edges=True)`
adding nothing since there are no faces).  Returns the object's id. -/
def create_mesh (st : Scene) (name : String) (coords : List V3) (connect : Bool)
    (edges : Option (List (ℕ × ℕ))) : Scene × ℕ :=
  let mesh_name := name ++ "Mesh"
  -- me = bpy.data.meshes.new(mesh_name)
  let meId := st.nextMeshId
  let st := { st with meshes := st.meshes ++ [(⟨meId, mesh_name, [], [], []⟩ : BMesh)],
                      nextMeshId := meId + 1 }
  let hit := match st.byName? name with
    | some ob0 => if ob0.obType = "MESH" then some ob0 else none
    | none => none
  let p := match hit with
    | some ob0 =>
        -- me_old = ob.data; ob.data = me; bpy.data.meshes.remove(me_old)
        let st := st.updateObj ob0.id (fun ob => { ob with meshKey := some meId })
        let st := match ob0.meshKey with
          | some k => { st with meshes := st.meshes.eraseP (fun m => m.id == k) }
          | none => st
        (st, ob0.id)
    | none =>
        -- ob = bpy.data.objects.new(name, me); bpy.context.scene.objects.link(ob)
        let ob : BObj :=
          { id := st.nextId, name := name, obType := "MESH",
            selected := false, in_scene := true, rotation_mode := RotMode.XYZ,
            rotation_quaternion := Quat.one, rotation_axis_angle := (0, 0, 1, 0),
            rotation_euler := V3.zero, location := V3.zero,
            matrix_world := Affine.id, meshKey := some meId,
            show_keyframe_highlight := false }
        ({ st with objects := st.objects ++ [ob], nextId := st.nextId + 1 }, st.nextId)
  -- ob.location = [0, 0, 0]
  let st := p.1.updateObj p.2 (fun ob => { ob with location := ⟨0, 0, 0⟩ })
  -- edges override (lines 223-226): zip(range(len(coords) - 1), range(1, len(coords)))
  let edgesFinal : List (ℕ × ℕ) :=
    if connect then (List.range (coords.length - 1)).zip (List.range' 1 (coords.length - 1))
    else
      match edges with
      | some es => if es.isEmpty then [] else es
      | none => []
  let st := { st with meshes := st.meshes.map (fun m : BMesh =>
      if m.id = meId then { m with verts := coords, edges := edgesFinal, faces := [] }
      else m) }
  (st, p.2)

/-! ### `extract_points_to_MATLAB` (lines 241-259) and
`extract_points_to_pcd_file` (lines 304-318)

Both build `verts` by the same loop and hand the resulting flat N-by-3
array to an external save routine (`scipy.io.savemat`, respectively
`dataset_tools.save_3D_points_to_pcd_file`).  The embedding returns the
payload handed over (`np.array` of a list of coordinate triples is the
N-by-3 array itself, modelled as the list of vectors). -/

/-- `extract_points_to_MATLAB`: the `(filename, var_name, verts)` payload
of the `sio.savemat(filename, dict)` call. -/
def extract_points_to_MATLAB (st : Scene) (filename : String) (by_selection : Bool)
    (name_starts_with name_ends_with : String) (var_name : String) :
    String × String × List V3 :=
  let verts := (get_objects st by_selection name_starts_with name_ends_with).foldl
    (fun acc p => acc ++ (st.obDataVerts p.2).map (fun vertex =>
      p.2.matrix_world.apply vertex)) []
  (filename, var_name, verts)

/-- `extract_points_to_pcd_file`: the `(filename, verts)` payload of the
`dataset_tools.save_3D_points_to_pcd_file(filename, verts)` call. -/
def extract_points_to_pcd_file (st : Scene) (filename : String) (by_selection : Bool)
    (name_starts_with name_ends_with : String) : String × List V3 :=
  let verts := (get_objects st by_selection name_starts_with name_ends_with).foldl
    (fun acc p => acc ++ (st.obDataVerts p.2).map (fun vertex =>
      p.2.matrix_world.apply vertex)) []
  (filename, verts)

/-! ### `extract_points_to_ply_file` (lines 261-302) and the operators
it sequences -/

namespace Scene

/-- `bpy.ops.object.duplicate()`: duplicate the selected objects (with
fresh object ids and fresh copies of their mesh datablocks); the
duplicates become selected, the originals are deselected, and the
duplicate of the old active object (when it was selected) becomes
active. -/
def opDuplicate (st : Scene) : Scene :=
  let sel := st.selectedObs
  let copies := sel.enum.map (fun p =>
    { p.2 with id := st.nextId + p.1, selected := true,
               meshKey := p.2.meshKey.map (fun _ => st.nextMeshId + p.1) })
  let meshCopies := sel.enum.filterMap (fun p =>
    p.2.meshKey.bind (fun k => (st.getMesh? k).map (fun m =>
      { m with id := st.nextMeshId + p.1 })))
  { st with
    objects := st.objects.map (fun ob => { ob with selected := false }) ++ copies,
    meshes := st.meshes ++ meshCopies,
    active := match st.active with
      | some a =>
          match sel.enum.find? (fun p => p.2.id = a) with
          | some p => some (st.nextId + p.1)
          | none => some a
      | none => none,
    nextId := st.nextId + sel.length,
    nextMeshId := st.nextMeshId + sel.length }

/-- Merge the geometry of `src` onto `acc` with vertex-index offsets, for
`opJoin`. -/
def joinMeshData (acc src : BMesh) : BMesh :=
  let base := acc.verts.length
  { acc with
    verts := acc.verts ++ src.verts,
    edges := acc.edges ++ src.edges.map (fun e => (e.1 + base, e.2 + base)),
    faces := acc.faces ++ src.faces.map (fun f => f.map (fun v => v + base)) }

/-- `bpy.ops.object.join()`: merge the selected objects into the active
object's mesh and remove the merged-in objects from the data. -/
def opJoin (st : Scene) : Scene :=
  match st.active with
  | none => st
  | some a =>
      match (st.getObj? a).bind BObj.meshKey with
      | none => st
      | some ka =>
          let others := st.selectedObs.filter (fun ob => ob.id ≠ a)
          let merged := fun m0 : BMesh => others.foldl (fun acc ob =>
            match ob.meshKey.bind st.getMesh? with
            | some m => joinMeshData acc m
            | none => acc) m0
          { st with
            objects := st.objects.filter (fun ob =>
              ob.id == a || !(ob.in_scene && ob.selected)),
            meshes := st.meshes.map (fun m => if m.id = ka then merged m else m) }

/-- `bpy.ops.object.editmode_toggle()`. -/
def editmodeToggle (st : Scene) : Scene := { st with edit_mode := !st.edit_mode }

/-- Apply `f` to the active object's mesh datablock (the edit-mode mesh
operators act on the mesh being edited). -/
def updateActiveMesh (st : Scene) (f : BMesh → BMesh) : Scene :=
  match st.activeOb with
  | some ob =>
      match ob.meshKey with
      | some k => { st with meshes := st.meshes.map (fun m =>
          if m.id = k then f m else m) }
      | none => st
  | none => st

end Scene

/-- `bpy.ops.mesh.select_all(action="SELECT")`: element selection inside
the edited mesh is not tracked (the subsequent operators are modelled as
acting on all elements), so this is the identity on the state. -/
def meshSelectAllSelect (st : Scene) : Scene := st

/-- `bpy.ops.mesh.delete(type='EDGE_FACE')`: remove all (selected) edges
and faces, keeping the vertices. -/
def meshDeleteEdgeFace (st : Scene) : Scene :=
  st.updateActiveMesh (fun m => { m with edges := [], faces := [] })

/-- `bpy.ops.mesh.edge_face_add()`: span a single face over the selected
vertices. -/
def meshEdgeFaceAdd (st : Scene) : Scene :=
  st.updateActiveMesh (fun m => { m with faces := m.faces ++ [List.range m.verts.length] })

/-- Fan-triangulate one N-gon. -/
def fanTriangulate (f : List ℕ) : List (List ℕ) :=
  match f.head? with
  | none => []
  | some v0 => ((f.drop 1).zip (f.drop 2)).map (fun p => [v0, p.1, p.2])

/-- `bpy.ops.mesh.quads_convert_to_tris()`: triangulate the faces. -/
def meshQuadsToTris (st : Scene) : Scene :=
  st.updateActiveMesh (fun m =>
    { m with faces := m.faces.foldr (fun f acc => fanTriangulate f ++ acc) [] })

/-- `bpy.ops.export_mesh.ply(filepath=filename, ...)`: record the export
of the active object's vertices. -/
def exportMeshPly (st : Scene) (filename : String) : Scene :=
  let payload := match st.activeOb with
    | some ob => st.obDataVerts ob
    | none => []
  { st with plyExports := st.plyExports ++ [(filename, payload)] }

/-- `bpy.ops.object.delete(use_global=True)`: remove the selected objects
from the data; a deleted active object leaves no active object. -/
def Scene.opDeleteSelected (st : Scene) : Scene :=
  { st with
    objects := st.objects.filter (fun ob => !(ob.in_scene && ob.selected)),
    active := match st.active with
      | some a =>
          match st.getObj? a with
          | some ob => if ob.in_scene && ob.selected then none else some a
          | none => none
      | none => none }

/-- `extract_points_to_ply_file(filename, by_selection, name_starts_with,
name_ends_with)`: back up the selection, select the matching objects,
duplicate (and join) them into a temporary mesh, strip and re-triangulate
it, export it, delete it, and restore the original selection. -/
def extract_points_to_ply_file (st : Scene) (filename : String) (by_selection : Bool)
    (name_starts_with name_ends_with : String) : Scene :=
  -- lines 272-273: save current selection
  let selected_objects_backup := st.selectedObs.map (fun ob => ob.id)
  let active_object_backup := st.active
  -- lines 276-279: select to-be-exported objects
  let st := st.deselectAll
  let st := (get_objects st by_selection name_starts_with name_ends_with).foldl
    (fun s p => { s.selectObj p.2.id with active := some p.2.id }) st
  -- lines 282-284: join to-be-exported objects into one temporary mesh
  let st := st.opDuplicate
  let st := if st.selectedObs.length > 1 then st.opJoin else st
  -- lines 287-293: remove all edges and faces, and add dummy faces
  let st := st.editmodeToggle
  let st := meshSelectAllSelect st
  let st := meshDeleteEdgeFace st
  let st := meshSelectAllSelect st
  let st := meshEdgeFaceAdd st
  let st := meshQuadsToTris st
  let st := st.editmodeToggle
  -- line 295: export to ply-file
  let st := exportMeshPly st filename
  -- line 296: remove temporary mesh
  let st := st.opDeleteSelected
  -- lines 299-302: restore original selection
  let st := st.deselectAll
  let st := selected_objects_backup.foldl (fun s i => s.selectObj i) st
  { st with active := active_object_backup }

/-! ### Well-formed scenes and auxiliary definitions for the claims -/

/-- The invariants Blender maintains on its data that the module relies
on: object/mesh identities are distinct and below the fresh-id counters,
object names are unique in `bpy.data.objects`, `ob.data` references live
below the mesh counter, and selected objects are linked to the scene. -/
structure WfScene (st : Scene) : Prop where
  obj_ids_nodup : st.objIds.Nodup
  obj_ids_lt : ∀ ob ∈ st.objects, ob.id < st.nextId
  names_nodup : (st.objects.map (fun ob => ob.name)).Nodup
  mesh_ids_nodup : st.meshIds.Nodup
  mesh_ids_lt : ∀ m ∈ st.meshes, m.id < st.nextMeshId
  meshKey_lt : ∀ ob ∈ st.objects, ∀ k, ob.meshKey = some k → k < st.nextMeshId
  sel_in_scene : ∀ ob ∈ st.objects, ob.selected = true → ob.in_scene = true

instance : IsTrans (String × BObj) (fun a b => a.1 ≤ b.1) :=
  ⟨fun _ _ _ h1 h2 => le_trans h1 h2⟩

instance : IsTotal (String × BObj) (fun a b => a.1 ≤ b.1) :=
  ⟨fun a b => le_total a.1 b.1⟩

/-- The objects a point-cloud export draws from, before filtering: the
selected objects, or the objects of the current scene. -/
def consideredObjects (st : Scene) (by_selection : Bool) : List BObj :=
  if by_selection then st.selectedObs else st.objects.filter (fun ob => ob.in_scene)

/-- The predicate of C4: a mesh object whose name carries the requested
prefix and suffix. -/
def matchesFilter (pre suf : String) (ob : BObj) : Bool :=
  ob.name.startsWith pre && ob.name.endsWith suf && ob.obType == "MESH"

/-- An object's vertex coordinates transformed to world space by its
`matrix_world`. -/
def worldVerts (st : Scene) (ob : BObj) : List V3 :=
  (st.obDataVerts ob).map (fun v => ob.matrix_world.apply v)

/-- The flat N-by-3 array described by C2: the concatenation, over the
matching mesh objects in ascending object-name order, of each object's
world-space vertex coordinates. -/
def specFlatPointArray (st : Scene) (by_selection : Bool) (pre suf : String) :
    List V3 :=
  (List.insertionSort (fun a b : BObj => a.name ≤ b.name)
    ((consideredObjects st by_selection).filter (matchesFilter pre suf))).flatMap
    (worldVerts st)

/-- A scene object with default transform, for concrete witness scenes. -/
def plainObj (i : ℕ) (name ty : String) (sel : Bool) (mk : Option ℕ) : BObj :=
  { id := i, name := name, obType := ty, selected := sel, in_scene := true,
    rotation_mode := RotMode.XYZ, rotation_quaternion := Quat.one,
    rotation_axis_angle := (0, 0, 1, 0), rotation_euler := V3.zero,
    location := V3.zero, matrix_world := Affine.id, meshKey := mk,
    show_keyframe_highlight := false }

/-- A scene holding one camera named "Cam". -/
def sceneCam : Scene :=
  { scene0 with objects := [plainObj 0 "Cam" "CAMERA" false none], nextId := 1 }

/-- A scene holding one mesh object named "M" with mesh datablock 0. -/
def sceneMesh : Scene :=
  { scene0 with
    objects := [plainObj 0 "M" "MESH" false (some 0)],
    meshes := [⟨0, "MMesh", [V3.zero], [], []⟩], nextId := 1, nextMeshId := 1 }

/-- The rvec of C1's counterexample. -/
def rvec0 : V3 := ⟨-π, 0, 0⟩

/-- The tvec of C1's counterexample. -/
def tvec0 : V3 := ⟨0, 0, 0⟩

/-! ## Generic list lemmas -/

theorem foldl_append_eq_append_flatMap {α β : Type} (l : List α) (f : α → List β) :
    ∀ a : List β, l.foldl (fun acc x => acc ++ f x) a = a ++ l.flatMap f := by
  induction l with
  | nil => intro a; simp
  | cons x l ih => intro a; simp [ih, List.append_assoc]

theorem find?_idf_map_update {α : Type} (idf : α → ℕ) (f : α → α)
    (hf : ∀ a, idf (f a) = idf a) (i j : ℕ) (l : List α) :
    (l.map (fun a => if idf a = i then f a else a)).find? (fun a => idf a = j)
      = if j = i then (l.find? (fun a => idf a = i)).map f
        else l.find? (fun a => idf a = j) := by
  induction l with
  | nil => simp
  | cons a l ih =>
      by_cases hai : idf a = i
      · by_cases hji : j = i
        · subst hji; simp [List.find?_cons, hai, hf, ih]
        · have hij : i ≠ j := fun h => hji h.symm
          simp [List.find?_cons, hai, hf, hji, ih, hij]
      · by_cases haj : idf a = j
        · have hji : ¬ j = i := fun h => hai (h ▸ haj)
          simp [List.find?_cons, hai, haj, hji]
        · simp [List.find?_cons, hai, haj, ih]

theorem find?_eraseP_ne {α : Type} (idf : α → ℕ) (k j : ℕ) (hkj : k ≠ j)
    (l : List α) :
    (l.eraseP (fun a => idf a == k)).find? (fun a => idf a = j)
      = l.find? (fun a => idf a = j) := by
  induction l with
  | nil => simp
  | cons a l ih =>
      by_cases hak : idf a = k
      · have haj : ¬ idf a = j := fun h => hkj (hak ▸ h)
        simp [List.eraseP_cons, hak, List.find?_cons, haj, hkj]
      · by_cases haj : idf a = j
        · simp [List.eraseP_cons, hak, List.find?_cons, haj, beq_iff_eq,
            Ne.symm hkj]
        · simp [List.eraseP_cons, hak, List.find?_cons, haj, ih]

/-! ## C9: the trajectory builder restores the scene's current frame -/

/-- C9: `create_cam_trajectory` backs up `bpy.context.scene.frame_current`
at entry and restores it before returning, so the call leaves the scene's
current frame unchanged even though the keyframe loop reassigns it once
per trajectory node. -/
theorem c9_traj_restores_frame_current (st : Scene) (name : String)
    (locations : List V3) (quaternions : List (ℝ × ℝ × ℝ × ℝ))
    (start_frame : ℤ) (framenrs : Option (List ℤ)) :
    (create_cam_trajectory st name locations quaternions start_frame
      framenrs).frame_current = st.frame_current := rfl

/-! ## C3: no validation, no recovery, errors propagate -/

theorem extractObQuat_isOk (ob : BObj) : ∃ q, extractObQuat ob = Except.ok q := by
  cases h : ob.rotation_mode <;> simp [extractObQuat, h]

/-- C3: the module's functions neither validate nor recover: a failure of
the host context read propagates through `extract_current_pose` unchanged,
and for every host-typed object the function raises nothing of its own —
in particular the `assert` over the rotation mode never rejects, since
Blender's `rotation_mode` enumeration is exhausted by the three branches. -/
theorem c3_no_recovery :
    (∀ e, extract_current_pose_ctx (Except.error e) = Except.error e)
      ∧ ∀ ob, ∃ v, extract_current_pose_ctx (Except.ok ob) = Except.ok v := by
  constructor
  · intro e; rfl
  · intro ob
    obtain ⟨q, hq⟩ := extractObQuat_isOk ob
    exact ⟨_, by simp only [extract_current_pose_ctx, extractPoseOfOb, hq]; rfl⟩

/-! ## C4: `get_objects` filters and sorts -/

/-- C4: `get_objects` returns exactly the `(name, object)` pairs — drawn
from the selected objects when `by_selection` is true and from the
current scene's objects otherwise — of the objects of type `"MESH"`
whose name starts with `name_starts_with` and ends with
`name_ends_with`, sorted in ascending order of object name. -/
theorem c4_get_objects (st : Scene) (by_selection : Bool) (pre suf : String) :
    (get_objects st by_selection pre suf).Perm
        (((consideredObjects st by_selection).filter (matchesFilter pre suf)).map
          (fun ob => (ob.name, ob)))
      ∧ List.Sorted (fun a b : String × BObj => a.1 ≤ b.1)
          (get_objects st by_selection pre suf) := by
  constructor
  · exact List.perm_insertionSort _ _
  · exact List.sorted_insertionSort _ _

/-! ## C2: the exporters hand over exactly the concatenated world-space
vertex array -/

theorem export_fold_eq_spec (st : Scene) (by_selection : Bool) (pre suf : String) :
    (get_objects st by_selection pre suf).foldl
        (fun acc p => acc ++ (st.obDataVerts p.2).map (fun vertex =>
          p.2.matrix_world.apply vertex)) []
      = specFlatPointArray st by_selection pre suf := by
  rw [foldl_append_eq_append_flatMap, List.nil_append]
  show (get_objects st by_selection pre suf).flatMap
      (fun p => worldVerts st p.2) = _
  have hmap := List.map_insertionSort
    (r := fun a b : BObj => a.name ≤ b.name)
    (s := fun a b : String × BObj => a.1 ≤ b.1)
    (fun ob => (ob.name, ob))
    ((consideredObjects st by_selection).filter (matchesFilter pre suf))
    (fun _ _ _ _ => Iff.rfl)
  show (List.insertionSort (fun a b : String × BObj => a.1 ≤ b.1)
      (((consideredObjects st by_selection).filter (matchesFilter pre suf)).map
        (fun ob => (ob.name, ob)))).flatMap (fun p => worldVerts st p.2) = _
  rw [← hmap, List.flatMap_map]
  rfl

/-- C2: `extract_points_to_MATLAB` and `extract_points_to_pcd_file` hand
the external save routine exactly the flat N-by-3 array obtained by
concatenating, over the matching mesh objects in ascending object-name
order, each object's vertex coordinates transformed to world space by
its `matrix_world`, with no other modification. -/
theorem c2_export_payloads (st : Scene) (filename : String) (by_selection : Bool)
    (pre suf var_name : String) :
    extract_points_to_MATLAB st filename by_selection pre suf var_name
        = (filename, var_name, specFlatPointArray st by_selection pre suf)
      ∧ extract_points_to_pcd_file st filename by_selection pre suf
        = (filename, specFlatPointArray st by_selection pre suf) := by
  have h := export_fold_eq_spec st by_selection pre suf
  constructor
  · show (filename, var_name,
      (get_objects st by_selection pre suf).foldl
        (fun acc p => acc ++ (st.obDataVerts p.2).map (fun vertex =>
          p.2.matrix_world.apply vertex)) []) = _
    rw [h]
  · show (filename,
      (get_objects st by_selection pre suf).foldl
        (fun acc p => acc ++ (st.obDataVerts p.2).map (fun vertex =>
          p.2.matrix_world.apply vertex)) []) = _
    rw [h]

/-! ## C6: one and the same fixed conversion quaternion -/

/-- The quaternion literal `Quaternion((1.0, 0.0, 0.0), radians(180.0))`
evaluates to the 180-degree rotation about the X axis, `(0, 1, 0, 0)`. -/
theorem q180_value : axisAngleToQuat ⟨1, 0, 0⟩ (radians 180) = (⟨0, 1, 0, 0⟩ : Quat) := by
  have hs : V3.norm3 ⟨1, 0, 0⟩ = 1 := by
    simp [V3.norm3, V3.sumSq]
  have hr : radians 180 / 2 = π / 2 := by
    simp only [radians]; ring
  simp [axisAngleToQuat, hs, hr, Real.cos_pi_div_two, Real.sin_pi_div_two]

/-- C6: every conversion between the Blender and OpenCV camera-axis
conventions — in `create_camera_pose` (line 108), `extract_current_pose`
(line 125) and `create_cam_trajectory` (line 168) — multiplies the
orientation quaternion on the right by one and the same fixed quaternion
`(0, 1, 0, 0)`, the 180-degree rotation about the local X axis. -/
theorem c6_single_fixed_conversion :
    (∀ (ob : BObj) (axis : V3) (angle : ℝ) (pos : V3),
        (poseAssign ob axis angle pos).rotation_quaternion
          = axisAngleToQuat axis angle * (⟨0, 1, 0, 0⟩ : Quat))
      ∧ (∀ q : Quat, extractQ2 q = q * (⟨0, 1, 0, 0⟩ : Quat))
      ∧ (∀ (ob : BObj) (loc : V3) (quat : ℝ × ℝ × ℝ × ℝ),
          (trajAssign ob loc quat).rotation_quaternion
            = (⟨quat.2.2.2, quat.1, quat.2.1, quat.2.2.1⟩ : Quat)
                * (⟨0, 1, 0, 0⟩ : Quat))
      ∧ axisAngleToQuat ⟨1, 0, 0⟩ (radians 180) = (⟨0, 1, 0, 0⟩ : Quat) := by
  refine ⟨?_, ?_, ?_, q180_value⟩
  · intro ob axis angle pos
    show axisAngleToQuat axis angle * axisAngleToQuat ⟨1, 0, 0⟩ (radians 180)
        = axisAngleToQuat axis angle * ⟨0, 1, 0, 0⟩
    rw [q180_value]
  · intro q
    show q * axisAngleToQuat ⟨1, 0, 0⟩ (radians 180) = q * ⟨0, 1, 0, 0⟩
    rw [q180_value]
  · intro ob loc quat
    show (⟨quat.2.2.2, quat.1, quat.2.1, quat.2.2.1⟩ : Quat)
          * axisAngleToQuat ⟨1, 0, 0⟩ (radians 180)
        = (⟨quat.2.2.2, quat.1, quat.2.1, quat.2.2.1⟩ : Quat) * ⟨0, 1, 0, 0⟩
    rw [q180_value]

/-! ## C7: `create_mesh` edge construction -/

theorem zip_range_eq_map (n : ℕ) :
    (List.range n).zip (List.range' 1 n) = (List.range n).map (fun i => (i, i + 1)) := by
  rw [List.range'_eq_map_range]
  calc (List.range n).zip ((List.range n).map (fun i => 1 + i))
      = ((List.range n).map id).zip ((List.range n).map (fun i => 1 + i)) := by
        rw [List.map_id]
    _ = (List.range n).map (fun a => (id a, 1 + a)) := List.zip_map' _ _ _
    _ = (List.range n).map (fun i => (i, i + 1)) := by
        apply List.map_congr_left
        intro a _
        simp [Nat.add_comm]

theorem find?_idf_of_mem_nodup {α : Type} (idf : α → ℕ) (l : List α)
    (hnd : (l.map idf).Nodup) (a0 : α) (h : a0 ∈ l) :
    l.find? (fun a => idf a = idf a0) = some a0 := by
  induction l with
  | nil => cases h
  | cons a l ih =>
      rw [List.map_cons, List.nodup_cons] at hnd
      rcases List.mem_cons.mp h with rfl | h0
      · simp [List.find?_cons]
      · have hmem : idf a0 ∈ l.map idf := List.mem_map_of_mem idf h0
        have hne : ¬ idf a = idf a0 := fun he => hnd.1 (he ▸ hmem)
        simp [List.find?_cons, hne, ih hnd.2 h0]

theorem create_mesh_mesh_eval (st : Scene) (name : String) (coords : List V3)
    (connect : Bool) (edges : Option (List (ℕ × ℕ))) (hwf : WfScene st) :
    (create_mesh st name coords connect edges).1.getMesh? st.nextMeshId
      = some ⟨st.nextMeshId, name ++ "Mesh", coords,
          (if connect then
            (List.range (coords.length - 1)).zip (List.range' 1 (coords.length - 1))
          else
            match edges with
            | some es => if es.isEmpty then [] else es
            | none => []), []⟩ := by
  have hfind_base : (st.meshes ++
      [(⟨st.nextMeshId, name ++ "Mesh", [], [], []⟩ : BMesh)]).find?
        (fun m => m.id = st.nextMeshId)
      = some ⟨st.nextMeshId, name ++ "Mesh", [], [], []⟩ := by
    rw [List.find?_append]
    have h1 : st.meshes.find? (fun m => m.id = st.nextMeshId) = none := by
      rw [List.find?_eq_none]
      intro m hm
      simpa using Nat.ne_of_lt (hwf.mesh_ids_lt m hm)
    rw [h1]
    simp [List.find?_cons]
  rcases hb : st.byName? name with _ | ob0 <;>
    rw [Scene.byName?] at hb
  · simp only [create_mesh, Scene.getMesh?, Scene.byName?, Scene.updateObj, hb]
    rw [find?_idf_map_update BMesh.id _ (by intro a; rfl)]
    simp only [if_pos rfl, hfind_base]
    simp
  · have hmem : ob0 ∈ st.objects := List.mem_of_find?_eq_some hb
    by_cases ht : ob0.obType = "MESH"
    · rcases hk : ob0.meshKey with _ | k
      · simp only [create_mesh, Scene.getMesh?, Scene.byName?, Scene.updateObj,
          hb, ht, if_pos, hk]
        rw [find?_idf_map_update BMesh.id _ (by intro a; rfl)]
        simp only [if_pos rfl, hfind_base]
        simp
      · have hklt : k < st.nextMeshId := hwf.meshKey_lt ob0 hmem k hk
        have hkne : k ≠ st.nextMeshId := Nat.ne_of_lt hklt
        simp only [create_mesh, Scene.getMesh?, Scene.byName?, Scene.updateObj,
          hb, ht, if_pos, hk]
        rw [find?_idf_map_update BMesh.id _ (by intro a; rfl)]
        rw [if_pos rfl, find?_eraseP_ne BMesh.id k st.nextMeshId hkne, hfind_base]
        simp
    · simp only [create_mesh, Scene.getMesh?, Scene.byName?, Scene.updateObj,
        hb, if_neg ht]
      rw [find?_idf_map_update BMesh.id _ (by intro a; rfl)]
      rw [if_pos rfl, hfind_base]
      simp

theorem create_mesh_ob_eval (st : Scene) (name : String) (coords : List V3)
    (connect : Bool) (edges : Option (List (ℕ × ℕ))) (hwf : WfScene st) :
    ((create_mesh st name coords connect edges).1.getObj?
        (create_mesh st name coords connect edges).2).map (fun ob => ob.location)
      = some ⟨0, 0, 0⟩ := by
  have hnew : st.objects.find? (fun ob => ob.id = st.nextId) = none := by
    rw [List.find?_eq_none]
    intro ob hob
    simpa using Nat.ne_of_lt (hwf.obj_ids_lt ob hob)
  rcases hb : st.byName? name with _ | ob0 <;> rw [Scene.byName?] at hb
  · simp only [create_mesh, Scene.getObj?, Scene.byName?, Scene.updateObj, hb]
    rw [find?_idf_map_update BObj.id _ (by intro a; rfl)]
    rw [if_pos rfl, List.find?_append, hnew]
    simp [List.find?_cons]
  · by_cases ht : ob0.obType = "MESH"
    · have hmem : ob0 ∈ st.objects := List.mem_of_find?_eq_some hb
      have hfind := find?_idf_of_mem_nodup BObj.id st.objects hwf.obj_ids_nodup ob0 hmem
      rcases hk : ob0.meshKey with _ | k
      · simp only [create_mesh, Scene.getObj?, Scene.byName?, Scene.updateObj,
          hb, ht, hk, if_pos]
        rw [find?_idf_map_update BObj.id _ (by intro a; rfl)]
        rw [if_pos rfl]
        rw [find?_idf_map_update BObj.id _ (by intro a; rfl)]
        rw [if_pos rfl, hfind]
        simp
      · simp only [create_mesh, Scene.getObj?, Scene.byName?, Scene.updateObj,
          hb, ht, hk, if_pos]
        rw [find?_idf_map_update BObj.id _ (by intro a; rfl)]
        rw [if_pos rfl]
        rw [find?_idf_map_update BObj.id _ (by intro a; rfl)]
        rw [if_pos rfl, hfind]
        simp
    · simp only [create_mesh, Scene.getObj?, Scene.byName?, Scene.updateObj,
        hb, if_neg ht]
      rw [find?_idf_map_update BObj.id _ (by intro a; rfl)]
      rw [if_pos rfl, List.find?_append, hnew]
      simp [List.find?_cons]

/-- C7: for every coordinate list, if `connect` is true `create_mesh`
builds the mesh with exactly the successive edges `(i, i+1)` for
`i = 0 .. len(coords)-2` — `len(coords)-1` edges in total — regardless of
the `edges` argument; if `connect` is false and `edges` is `None` or
empty the mesh has no edges; in every case the mesh is built with no
faces and the object is placed at the origin. -/
theorem c7_create_mesh (st : Scene) (name : String) (coords : List V3)
    (connect : Bool) (edges : Option (List (ℕ × ℕ))) (hwf : WfScene st) :
    (connect = true →
        (create_mesh st name coords connect edges).1.getMesh? st.nextMeshId
          = some ⟨st.nextMeshId, name ++ "Mesh", coords,
              (List.range (coords.length - 1)).map (fun i => (i, i + 1)), []⟩)
      ∧ (connect = false → edges = none ∨ edges = some [] →
          (create_mesh st name coords connect edges).1.getMesh? st.nextMeshId
            = some ⟨st.nextMeshId, name ++ "Mesh", coords, [], []⟩)
      ∧ (∀ m, (create_mesh st name coords connect edges).1.getMesh? st.nextMeshId
            = some m →
          m.faces = [] ∧ (connect = true → m.edges.length = coords.length - 1))
      ∧ ((create_mesh st name coords connect edges).1.getObj?
            (create_mesh st name coords connect edges).2).map (fun ob => ob.location)
          = some ⟨0, 0, 0⟩ := by
  have hm := create_mesh_mesh_eval st name coords connect edges hwf
  refine ⟨?_, ?_, ?_, create_mesh_ob_eval st name coords connect edges hwf⟩
  · intro hc
    subst hc
    rw [hm, if_pos rfl, zip_range_eq_map]
  · intro hc he
    subst hc
    rcases he with rfl | rfl <;> simpa using hm
  · intro m hmm
    rw [hm] at hmm
    cases Option.some.inj hmm
    refine ⟨rfl, ?_⟩
    intro hc
    subst hc
    simp

/-- Witness for C7 at a concrete input: three vertices, `connect` true,
and a non-trivial `edges` argument that must be ignored. -/
theorem wf_scene0 : WfScene scene0 := by
  constructor <;> simp [scene0, Scene.objIds, Scene.meshIds]

theorem c7_create_mesh_witness :
    WfScene scene0
      ∧ ((true = true →
            (create_mesh scene0 "W" [V3.zero, V3.zero, V3.zero] true
                (some [(5, 9)])).1.getMesh? scene0.nextMeshId
              = some ⟨scene0.nextMeshId, "W" ++ "Mesh", [V3.zero, V3.zero, V3.zero],
                  (List.range ([V3.zero, V3.zero, V3.zero].length - 1)).map
                    (fun i => (i, i + 1)), []⟩)
          ∧ (true = false → some [(5, 9)] = none ∨ some [(5, 9)] = some [] →
              (create_mesh scene0 "W" [V3.zero, V3.zero, V3.zero] true
                  (some [(5, 9)])).1.getMesh? scene0.nextMeshId
                = some ⟨scene0.nextMeshId, "W" ++ "Mesh",
                    [V3.zero, V3.zero, V3.zero], [], []⟩)
          ∧ (∀ m, (create_mesh scene0 "W" [V3.zero, V3.zero, V3.zero] true
                (some [(5, 9)])).1.getMesh? scene0.nextMeshId = some m →
              m.faces = [] ∧ (true = true →
                m.edges.length = [V3.zero, V3.zero, V3.zero].length - 1))
          ∧ ((create_mesh scene0 "W" [V3.zero, V3.zero, V3.zero] true
                (some [(5, 9)])).1.getObj?
                  (create_mesh scene0 "W" [V3.zero, V3.zero, V3.zero] true
                    (some [(5, 9)])).2).map (fun ob => ob.location)
              = some ⟨0, 0, 0⟩) :=
  ⟨wf_scene0, c7_create_mesh scene0 "W" [V3.zero, V3.zero, V3.zero] true
    (some [(5, 9)]) wf_scene0⟩

/-! ## C8: keyframe numbering is independent of `start_frame` -/

theorem getObj?_eq_find? (s : Scene) (i : ℕ) :
    s.getObj? i = s.objects.find? (fun ob => ob.id = i) := rfl

theorem updateObj_keyframes (s : Scene) (i : ℕ) (f : BObj → BObj) :
    (s.updateObj i f).keyframes = s.keyframes := rfl

theorem updateObj_pathsCalc (s : Scene) (i : ℕ) (f : BObj → BObj) :
    (s.updateObj i f).pathsCalc = s.pathsCalc := rfl

theorem setRotationMode_id (ob : BObj) (m : RotMode) :
    (setRotationMode ob m).id = ob.id := by
  cases m <;> rfl

theorem find?_id_isSome_of_mem (l : List BObj) (i : ℕ) (x : BObj)
    (hx : x ∈ l) (hid : x.id = i) :
    (l.find? (fun ob => ob.id = i)).isSome = true :=
  List.find?_isSome.mpr ⟨x, hx, by simp [hid]⟩

theorem updateObj_getObj?_isSome (s : Scene) (i : ℕ) (f : BObj → BObj)
    (hf : ∀ ob, (f ob).id = ob.id) (j : ℕ) (h : (s.getObj? j).isSome = true) :
    ((s.updateObj i f).getObj? j).isSome = true := by
  rw [getObj?_eq_find?] at h
  rw [getObj?_eq_find?]
  show ((s.objects.map (fun ob => if ob.id = i then f ob else ob)).find?
      (fun ob => ob.id = j)).isSome = true
  rw [find?_idf_map_update BObj.id f hf]
  by_cases hji : j = i
  · subst hji; simp [if_pos rfl, h]
  · simp [if_neg hji, h]

theorem keyframeInsert_objects (s : Scene) (i : ℕ) :
    (keyframeInsertLocRot s i).objects = s.objects := by
  rw [keyframeInsertLocRot]
  cases s.getObj? i <;> rfl

theorem keyframeInsert_pathsCalc (s : Scene) (i : ℕ) :
    (keyframeInsertLocRot s i).pathsCalc = s.pathsCalc := by
  rw [keyframeInsertLocRot]
  cases s.getObj? i <;> rfl

theorem enumFrom_map_fst_add_one (l : List (V3 × (ℝ × ℝ × ℝ × ℝ))) :
    ∀ k : ℕ, (l.enumFrom k).map (fun p => (p.1 : ℤ) + 1)
      = (List.range' k l.length).map (fun i => (i : ℤ) + 1) := by
  induction l with
  | nil => intro k; rfl
  | cons a l ih => intro k; simp [List.range'_succ, ih (k + 1)]

/-- One full evaluation of the keyframe loop of `create_cam_trajectory`
with `framenrs = None`: the keyframe inserted for the node enumerated `k`
lands on frame `k + 1`, and the loop never calls `paths_calculate`. -/
theorem trajLoop_none_eval (i : ℕ) (l : List (V3 × (ℝ × ℝ × ℝ × ℝ))) :
    ∀ (k : ℕ) (st : Scene), (st.getObj? i).isSome = true →
      (((l.enumFrom k).foldl (trajStep i none) st).keyframes.map (fun e => e.1)
          = st.keyframes.map (fun e => e.1)
            ++ (l.enumFrom k).map (fun p => (p.1 : ℤ) + 1))
        ∧ ((l.enumFrom k).foldl (trajStep i none) st).pathsCalc = st.pathsCalc := by
  induction l with
  | nil => intro k st _; exact ⟨by simp, rfl⟩
  | cons a l ih =>
      intro k st hp
      rw [getObj?_eq_find?] at hp
      rcases Option.isSome_iff_exists.mp hp with ⟨ob, hob⟩
      have hgu : (({ st with frame_current := (k : ℤ) + 1 }).updateObj i
            (fun o => trajAssign o a.1 a.2)).getObj? i
          = some (trajAssign ob a.1 a.2) := by
        rw [getObj?_eq_find?]
        show ((st.objects.map (fun o => if o.id = i then trajAssign o a.1 a.2
            else o)).find? (fun o => o.id = i)) = _
        rw [find?_idf_map_update BObj.id _ (by intro o; rfl), if_pos rfl, hob]
        rfl
      have hstep : trajStep i none st (k, a)
          = keyframeInsertLocRot (({ st with frame_current := (k : ℤ) + 1 }).updateObj i
              (fun o => trajAssign o a.1 a.2)) i := rfl
      have hkf1 : (trajStep i none st (k, a)).keyframes
          = st.keyframes ++ [((k : ℤ) + 1, (trajAssign ob a.1 a.2).location,
              (trajAssign ob a.1 a.2).rotation_quaternion)] := by
        rw [hstep, keyframeInsertLocRot, hgu]
        rfl
      have hob1 : ((trajStep i none st (k, a)).getObj? i).isSome = true := by
        rw [hstep, getObj?_eq_find?, keyframeInsert_objects]
        have := hgu
        rw [getObj?_eq_find?] at this
        rw [this]
        rfl
      have hpc1 : (trajStep i none st (k, a)).pathsCalc = st.pathsCalc := by
        rw [hstep, keyframeInsert_pathsCalc, updateObj_pathsCalc]
      obtain ⟨ihk, ihp⟩ := ih (k + 1) (trajStep i none st (k, a)) hob1
      constructor
      · show ((l.enumFrom (k + 1)).foldl (trajStep i none)
            (trajStep i none st (k, a))).keyframes.map (fun e => e.1) = _
        rw [ihk, hkf1]
        simp
      · show ((l.enumFrom (k + 1)).foldl (trajStep i none)
            (trajStep i none st (k, a))).pathsCalc = _
        rw [ihp, hpc1]

/-- The camera get-or-create stage touches neither the keyframe log nor
the `paths_calculate` log, and afterwards the returned camera id resolves
to an object. -/
theorem trajCamSetup_eval (st : Scene) (name : String) :
    (trajCamSetup st name).1.keyframes = st.keyframes
      ∧ (trajCamSetup st name).1.pathsCalc = st.pathsCalc
      ∧ ((trajCamSetup st name).1.getObj? (trajCamSetup st name).2).isSome = true := by
  rcases hb : st.byName? name with _ | ob0
  · refine ⟨?_, ?_, ?_⟩ <;> simp only [trajCamSetup, hb]
    · rfl
    · rfl
    · rw [getObj?_eq_find?]
      apply find?_id_isSome_of_mem _ _
        ({ Scene.freshCamera st.deselectAll.nextId with name := name })
      · show _ ∈ (st.deselectAll.objects ++ [Scene.freshCamera st.deselectAll.nextId]).map
          (fun ob => if ob.id = st.deselectAll.nextId
            then { ob with name := name } else ob)
        refine List.mem_map.mpr ⟨Scene.freshCamera st.deselectAll.nextId, ?_, ?_⟩
        · exact List.mem_append_right _ (List.mem_singleton.mpr rfl)
        · simp [Scene.freshCamera]
      · rfl
  · by_cases ht : ob0.obType = "CAMERA"
    · have hmem : ob0 ∈ st.objects := by
        rw [Scene.byName?] at hb
        exact List.mem_of_find?_eq_some hb

      refine ⟨?_, ?_, ?_⟩ <;> simp only [trajCamSetup, hb, ht, if_pos]
      · rfl
      · rfl
      · rw [getObj?_eq_find?]
        apply find?_id_isSome_of_mem _ _
          (if (({ ob0 with selected := false } : BObj)).id = ob0.id
            then { ({ ob0 with selected := false } : BObj) with selected := true }
            else { ob0 with selected := false })
        · show _ ∈ (st.objects.map (fun ob => ({ ob with selected := false } : BObj))).map
            (fun ob => if ob.id = ob0.id then { ob with selected := true } else ob)
          exact List.mem_map.mpr ⟨{ ob0 with selected := false },
            List.mem_map_of_mem _ hmem, rfl⟩
        · rw [if_pos rfl]
    · refine ⟨?_, ?_, ?_⟩ <;> simp only [trajCamSetup, hb, if_neg ht]
      · rfl
      · rfl
      · rw [getObj?_eq_find?]
        apply find?_id_isSome_of_mem _ _
          ({ Scene.freshCamera st.deselectAll.nextId with name := name })
        · show _ ∈ (st.deselectAll.objects ++ [Scene.freshCamera st.deselectAll.nextId]).map
            (fun ob => if ob.id = st.deselectAll.nextId
              then { ob with name := name } else ob)
          refine List.mem_map.mpr ⟨Scene.freshCamera st.deselectAll.nextId, ?_, ?_⟩
          · exact List.mem_append_right _ (List.mem_singleton.mpr rfl)
          · simp [Scene.freshCamera]
        · rfl

/-- C8: when `framenrs` is `None`, `create_cam_trajectory` inserts the
keyframe for trajectory node `i` (0-based) at frame `i + 1` regardless of
`start_frame`; `start_frame` only determines the frame range
`(start_frame, start_frame + len(locations))` handed to the motion-path
visualization. -/
theorem c8_traj_frames (st : Scene) (name : String) (locations : List V3)
    (quaternions : List (ℝ × ℝ × ℝ × ℝ)) (start_frame : ℤ) :
    ((create_cam_trajectory st name locations quaternions start_frame
          none).keyframes.map (fun e => e.1)
        = st.keyframes.map (fun e => e.1)
          ++ (List.range (locations.zip quaternions).length).map
              (fun i => (i : ℤ) + 1))
      ∧ (∀ sf₂ : ℤ,
          (create_cam_trajectory st name locations quaternions start_frame
            none).keyframes
          = (create_cam_trajectory st name locations quaternions sf₂
              none).keyframes)
      ∧ (create_cam_trajectory st name locations quaternions start_frame
            none).pathsCalc
        = st.pathsCalc ++ [(start_frame, start_frame + locations.length)] := by
  obtain ⟨hkf, hpc, hio⟩ := trajCamSetup_eval st name
  have hio2 : (((trajCamSetup st name).1.updateObj (trajCamSetup st name).2
        (fun ob => setRotationMode ob RotMode.QUATERNION)).getObj?
          (trajCamSetup st name).2).isSome = true :=
    updateObj_getObj?_isSome _ _ _ (fun ob => setRotationMode_id ob _) _ hio
  obtain ⟨hK, hP⟩ := trajLoop_none_eval (trajCamSetup st name).2
    (locations.zip quaternions) 0
    ((trajCamSetup st name).1.updateObj (trajCamSetup st name).2
      (fun ob => setRotationMode ob RotMode.QUATERNION)) hio2
  refine ⟨?_, fun sf₂ => rfl, ?_⟩
  · show (((locations.zip quaternions).enumFrom 0).foldl
        (trajStep (trajCamSetup st name).2 none)
        ((trajCamSetup st name).1.updateObj (trajCamSetup st name).2
          (fun ob => setRotationMode ob RotMode.QUATERNION))).keyframes.map
        (fun e => e.1) = _
    rw [hK, updateObj_keyframes, hkf, enumFrom_map_fst_add_one,
      ← List.range_eq_range']
  · show (((locations.zip quaternions).enumFrom 0).foldl
        (trajStep (trajCamSetup st name).2 none)
        ((trajCamSetup st name).1.updateObj (trajCamSetup st name).2
          (fun ob => setRotationMode ob RotMode.QUATERNION))).pathsCalc
        ++ [(start_frame, start_frame + locations.length)] = _
    rw [hP, updateObj_pathsCalc, hpc]

/-! ## C10: get-or-create never duplicates objects -/

theorem find?_key_of_mem_nodup {α β : Type} [DecidableEq β] (keyf : α → β)
    (l : List α) (hnd : (l.map keyf).Nodup) (a0 : α) (h : a0 ∈ l) :
    l.find? (fun a => keyf a = keyf a0) = some a0 := by
  induction l with
  | nil => cases h
  | cons a l ih =>
      rw [List.map_cons, List.nodup_cons] at hnd
      rcases List.mem_cons.mp h with rfl | h0
      · simp [List.find?_cons]
      · have hmem : keyf a0 ∈ l.map keyf := List.mem_map_of_mem keyf h0
        have hne : ¬ keyf a = keyf a0 := fun he => hnd.1 (he ▸ hmem)
        simp [List.find?_cons, hne, ih hnd.2 h0]

theorem updateObj_objIds (s : Scene) (i : ℕ) (f : BObj → BObj)
    (hf : ∀ ob, (f ob).id = ob.id) : (s.updateObj i f).objIds = s.objIds := by
  show (s.objects.map (fun ob => if ob.id = i then f ob else ob)).map
      (fun ob => ob.id) = s.objects.map (fun ob => ob.id)
  rw [List.map_map]
  apply List.map_congr_left
  intro a _
  by_cases h : a.id = i <;> simp [Function.comp, h, hf]

theorem deselectAll_objIds (s : Scene) : s.deselectAll.objIds = s.objIds := by
  show (s.objects.map (fun ob : BObj => ({ ob with selected := false } : BObj))).map
      (fun ob => ob.id) = s.objects.map (fun ob => ob.id)
  rw [List.map_map]
  rfl

theorem trajStep_objIds (i : ℕ) (fr : Option (List ℤ)) (st : Scene)
    (p : ℕ × V3 × (ℝ × ℝ × ℝ × ℝ)) :
    (trajStep i fr st p).objIds = st.objIds := by
  show (keyframeInsertLocRot
      ((({ st with
          frame_current := if pyTruthyFramenrs fr then (fr.getD []).getD p.1 0
            else (p.1 : ℤ) + 1 } : Scene)).updateObj i
        (fun ob => trajAssign ob p.2.1 p.2.2)) i).objects.map
      (fun ob => ob.id) = st.objects.map (fun ob => ob.id)
  rw [keyframeInsert_objects]
  exact updateObj_objIds _ _ _ (by intro ob; rfl)

theorem trajLoop_objIds (i : ℕ) (fr : Option (List ℤ))
    (l : List (ℕ × V3 × (ℝ × ℝ × ℝ × ℝ))) :
    ∀ st : Scene, (l.foldl (trajStep i fr) st).objIds = st.objIds := by
  induction l with
  | nil => intro st; rfl
  | cons a l ih => intro st; rw [List.foldl_cons, ih, trajStep_objIds]

theorem cameraAdd_new_objIds (st : Scene) :
    ((st.cameraAdd).1.updateObj (st.cameraAdd).2
        (fun ob => { ob with name := name })).objIds
      = st.objIds ++ [st.nextId] := by
  rw [updateObj_objIds _ _ _ (by intro ob; rfl)]
  show (st.deselectAll.objects ++ [Scene.freshCamera st.deselectAll.nextId]).map
      (fun ob => ob.id) = _
  rw [List.map_append]
  rw [show st.deselectAll.objects.map (fun ob => ob.id) = st.objIds from
    deselectAll_objIds st]
  rfl

theorem trajCamSetup_objIds_hit (st : Scene) (name : String) (ob0 : BObj)
    (hb : st.byName? name = some ob0) (ht : ob0.obType = "CAMERA") :
    (trajCamSetup st name).1.objIds = st.objIds := by
  simp only [trajCamSetup, hb, ht, if_pos]
  show ((st.deselectAll.selectObj ob0.id)).objIds = _
  rw [Scene.selectObj, updateObj_objIds _ _ _ (by intro ob; rfl), deselectAll_objIds]

theorem trajCamSetup_objIds_miss (st : Scene) (name : String)
    (hno : ∀ ob0 ∈ st.objects, ¬(ob0.name = name ∧ ob0.obType = "CAMERA")) :
    (trajCamSetup st name).1.objIds = st.objIds ++ [st.nextId] := by
  rcases hb : st.byName? name with _ | ob0
  · simp only [trajCamSetup, hb]
    exact cameraAdd_new_objIds st
  · have hmem : ob0 ∈ st.objects := by
      rw [Scene.byName?] at hb
      exact List.mem_of_find?_eq_some hb
    have hname : ob0.name = name := by
      rw [Scene.byName?] at hb
      simpa using List.find?_some hb
    have ht : ¬ ob0.obType = "CAMERA" := fun hc => hno ob0 hmem ⟨hname, hc⟩
    simp only [trajCamSetup, hb, if_neg ht]
    exact cameraAdd_new_objIds st

theorem objIds_set_frame (X : Scene) (b : ℤ) :
    ({ X with frame_current := b }).objIds = X.objIds := rfl

theorem objIds_ite_pathsCalc (c : Prop) [Decidable c] (X : Scene)
    (a b : List (ℤ × ℤ)) :
    (if c then { X with pathsCalc := X.pathsCalc ++ a }
     else { X with pathsCalc := X.pathsCalc ++ b }).objIds = X.objIds := by
  by_cases h : c <;> simp [h, Scene.objIds]

theorem create_cam_trajectory_objIds (st : Scene) (name : String)
    (locations : List V3) (quaternions : List (ℝ × ℝ × ℝ × ℝ))
    (start_frame : ℤ) (framenrs : Option (List ℤ)) :
    (create_cam_trajectory st name locations quaternions start_frame
        framenrs).objIds = (trajCamSetup st name).1.objIds := by
  simp only [create_cam_trajectory]
  rw [objIds_set_frame, objIds_ite_pathsCalc]
  rw [updateObj_objIds _ _ _ (by intro ob; rfl)]
  rw [trajLoop_objIds]
  exact updateObj_objIds _ _ _ (fun ob => setRotationMode_id ob _)

theorem create_camera_pose_hit (st : Scene) (name : String) (ob0 : BObj)
    (axis : V3) (angle : ℝ) (pos : V3)
    (hb : st.byName? name = some ob0) (ht : ob0.obType = "CAMERA")
    (hmem : ob0 ∈ st.objects) :
    (create_camera_pose st name axis angle pos).objIds = st.objIds
      ∧ ∃ ob ∈ (create_camera_pose st name axis angle pos).objects,
          ob.id = ob0.id ∧ ob.location = pos := by
  simp only [create_camera_pose, hb, ht, if_pos]
  constructor
  · exact updateObj_objIds _ _ _ (by intro ob; rfl)
  · refine ⟨_, List.mem_map_of_mem _ hmem, ?_, ?_⟩
    · rw [if_pos rfl]
      rfl
    · rw [if_pos rfl]
      rfl

theorem create_camera_pose_miss (st : Scene) (name : String)
    (axis : V3) (angle : ℝ) (pos : V3)
    (hno : ∀ ob0 ∈ st.objects, ¬(ob0.name = name ∧ ob0.obType = "CAMERA")) :
    (create_camera_pose st name axis angle pos).objIds
      = st.objIds ++ [st.nextId] := by
  rcases hb : st.byName? name with _ | ob0
  · simp only [create_camera_pose, hb]
    rw [updateObj_objIds _ _ _ (by intro ob; rfl)]
    exact cameraAdd_new_objIds st
  · have hmem : ob0 ∈ st.objects := by
      rw [Scene.byName?] at hb
      exact List.mem_of_find?_eq_some hb
    have hname : ob0.name = name := by
      rw [Scene.byName?] at hb
      simpa using List.find?_some hb
    have ht : ¬ ob0.obType = "CAMERA" := fun hc => hno ob0 hmem ⟨hname, hc⟩
    simp only [create_camera_pose, hb, if_neg ht]
    rw [updateObj_objIds _ _ _ (by intro ob; rfl)]
    exact cameraAdd_new_objIds st

theorem objIds_set_meshes (X : Scene) (ms : List BMesh) :
    ({ X with meshes := ms }).objIds = X.objIds := rfl

theorem meshIds_of_set_meshes (X : Scene) (ms : List BMesh) :
    ({ X with meshes := ms } : Scene).meshIds = ms.map (fun m => m.id) := rfl

theorem map_ids_map_preserve {α : Type} (idf : α → ℕ) (f : α → α)
    (hf : ∀ a, idf (f a) = idf a) (l : List α) :
    (l.map f).map idf = l.map idf := by
  rw [List.map_map]
  apply List.map_congr_left
  intro a _
  simp [Function.comp, hf]

theorem not_mem_ids_eraseP {α : Type} (idf : α → ℕ) (l : List α)
    (hnd : (l.map idf).Nodup) (k : ℕ) :
    k ∉ (l.eraseP (fun a => idf a == k)).map idf := by
  induction l with
  | nil => simp
  | cons a l ih =>
      rw [List.map_cons, List.nodup_cons] at hnd
      by_cases h : idf a = k
      · rw [List.eraseP_cons, show (idf a == k) = true by simp [h]]
        simpa [h] using hnd.1
      · rw [List.eraseP_cons, beq_false_of_ne h]
        simp only [Bool.cond_false, List.map_cons, List.mem_cons]
        rintro (rfl | hin)
        · exact h rfl
        · exact ih hnd.2 hin

theorem mem_eraseP_of_mem_of_not {α : Type} (p : α → Bool) (l : List α)
    (x : α) (hx : x ∈ l) (hpx : p x = false) : x ∈ l.eraseP p := by
  induction l with
  | nil => cases hx
  | cons a l ih =>
      rcases List.mem_cons.mp hx with rfl | hx'
      · rw [List.eraseP_cons, hpx]
        exact List.mem_cons_self _ _
      · rw [List.eraseP_cons]
        cases hpa : p a
        · exact List.mem_cons_of_mem _ (ih hx')
        · exact hx'

theorem create_mesh_hit (st : Scene) (name : String) (coords : List V3)
    (connect : Bool) (edges : Option (List (ℕ × ℕ))) (ob0 : BObj) (k : ℕ)
    (hwf : WfScene st) (hb : st.byName? name = some ob0)
    (ht : ob0.obType = "MESH") (hk : ob0.meshKey = some k)
    (hmem : ob0 ∈ st.objects) :
    (create_mesh st name coords connect edges).1.objIds = st.objIds
      ∧ k ∉ (create_mesh st name coords connect edges).1.meshIds
      ∧ st.nextMeshId ∈ (create_mesh st name coords connect edges).1.meshIds
      ∧ ∃ ob ∈ (create_mesh st name coords connect edges).1.objects,
          ob.id = ob0.id ∧ ob.meshKey = some st.nextMeshId := by
  have hkne : st.nextMeshId ≠ k :=
    fun he => Nat.ne_of_lt (hwf.meshKey_lt ob0 hmem k hk) he.symm
  have hnd2 : ((st.meshes ++
      [(⟨st.nextMeshId, name ++ "Mesh", [], [], []⟩ : BMesh)]).map
        (fun m => m.id)).Nodup := by
    rw [List.map_append]
    refine List.Nodup.append hwf.mesh_ids_nodup (List.nodup_singleton _) ?_
    intro x hx hx'
    rcases List.mem_map.mp hx with ⟨m, hm, rfl⟩
    have := hwf.mesh_ids_lt m hm
    simp at hx'
    omega
  rw [Scene.byName?] at hb
  simp only [create_mesh, Scene.byName?, hb, ht, hk, if_pos]
  refine ⟨?_, ?_, ?_, ?_⟩
  · rw [objIds_set_meshes, updateObj_objIds _ _ _ (by intro ob; rfl),
      objIds_set_meshes, updateObj_objIds _ _ _ (by intro ob; rfl)]
    rfl
  · rw [meshIds_of_set_meshes]
    rw [map_ids_map_preserve _ _
      (by intro a; by_cases h : a.id = st.nextMeshId <;> simp [h])]
    exact not_mem_ids_eraseP _ _ hnd2 k
  · rw [meshIds_of_set_meshes]
    rw [map_ids_map_preserve _ _
      (by intro a; by_cases h : a.id = st.nextMeshId <;> simp [h])]
    refine List.mem_map.mpr ⟨⟨st.nextMeshId, name ++ "Mesh", [], [], []⟩, ?_, rfl⟩
    refine mem_eraseP_of_mem_of_not _ _ _
      (List.mem_append_right _ (List.mem_singleton.mpr rfl)) ?_
    simp [hkne]
  · refine ⟨_, List.mem_map_of_mem _ (List.mem_map_of_mem _ hmem), ?_, ?_⟩
    · rw [if_pos rfl, if_pos rfl]
    · rw [if_pos rfl, if_pos rfl]

theorem create_mesh_miss (st : Scene) (name : String) (coords : List V3)
    (connect : Bool) (edges : Option (List (ℕ × ℕ)))
    (hno : ∀ ob0 ∈ st.objects, ¬(ob0.name = name ∧ ob0.obType = "MESH")) :
    (create_mesh st name coords connect edges).1.objIds
      = st.objIds ++ [st.nextId] := by
  rcases hb : st.byName? name with _ | ob0 <;> rw [Scene.byName?] at hb
  · simp only [create_mesh, Scene.byName?, hb]
    rw [objIds_set_meshes, updateObj_objIds _ _ _ (by intro ob; rfl)]
    simp only [Scene.objIds]
    rw [List.map_append]
    rfl
  · have hmem : ob0 ∈ st.objects := List.mem_of_find?_eq_some hb
    have hname : ob0.name = name := by simpa using List.find?_some hb
    have ht : ¬ ob0.obType = "MESH" := fun hc => hno ob0 hmem ⟨hname, hc⟩
    simp only [create_mesh, Scene.byName?, hb, if_neg ht]
    rw [objIds_set_meshes, updateObj_objIds _ _ _ (by intro ob; rfl)]
    simp only [Scene.objIds]
    rw [List.map_append]
    rfl

/-- C10: `create_camera_pose`, `create_cam_trajectory` and `create_mesh`
never create a second object when an object of the requested name and of
the expected type (`"CAMERA"` for the first two, `"MESH"` for the last)
already exists — the object identities are unchanged and the named object
is updated in place (`create_mesh` additionally swapping in the fresh
mesh datablock and removing the old one); a new object is created only
when no such object exists. -/
theorem c10_get_or_create :
    (∀ (st : Scene) (name : String) (axis : V3) (angle : ℝ) (pos : V3),
        WfScene st →
        (∀ ob0 ∈ st.objects, ob0.name = name → ob0.obType = "CAMERA" →
            (create_camera_pose st name axis angle pos).objIds = st.objIds
              ∧ ∃ ob ∈ (create_camera_pose st name axis angle pos).objects,
                  ob.id = ob0.id ∧ ob.location = pos)
          ∧ ((∀ ob0 ∈ st.objects, ¬(ob0.name = name ∧ ob0.obType = "CAMERA")) →
              (create_camera_pose st name axis angle pos).objIds
                = st.objIds ++ [st.nextId]))
      ∧ (∀ (st : Scene) (name : String) (locations : List V3)
            (quaternions : List (ℝ × ℝ × ℝ × ℝ)) (start_frame : ℤ)
            (framenrs : Option (List ℤ)), WfScene st →
          (∀ ob0 ∈ st.objects, ob0.name = name → ob0.obType = "CAMERA" →
              (create_cam_trajectory st name locations quaternions start_frame
                framenrs).objIds = st.objIds)
            ∧ ((∀ ob0 ∈ st.objects, ¬(ob0.name = name ∧ ob0.obType = "CAMERA")) →
                (create_cam_trajectory st name locations quaternions start_frame
                  framenrs).objIds = st.objIds ++ [st.nextId]))
      ∧ (∀ (st : Scene) (name : String) (coords : List V3) (connect : Bool)
            (edges : Option (List (ℕ × ℕ))), WfScene st →
          (∀ ob0 ∈ st.objects, ob0.name = name → ob0.obType = "MESH" →
              ∀ k, ob0.meshKey = some k →
              (create_mesh st name coords connect edges).1.objIds = st.objIds
                ∧ k ∉ (create_mesh st name coords connect edges).1.meshIds
                ∧ st.nextMeshId ∈ (create_mesh st name coords connect
                    edges).1.meshIds
                ∧ ∃ ob ∈ (create_mesh st name coords connect edges).1.objects,
                    ob.id = ob0.id ∧ ob.meshKey = some st.nextMeshId)
            ∧ ((∀ ob0 ∈ st.objects, ¬(ob0.name = name ∧ ob0.obType = "MESH")) →
                (create_mesh st name coords connect edges).1.objIds
                  = st.objIds ++ [st.nextId])) := by
  refine ⟨?_, ?_, ?_⟩
  · intro st name axis angle pos hwf
    constructor
    · intro ob0 hmem hname htype
      subst hname
      have hb : st.byName? ob0.name = some ob0 := by
        rw [Scene.byName?]
        exact find?_key_of_mem_nodup BObj.name st.objects hwf.names_nodup ob0 hmem
      exact create_camera_pose_hit st ob0.name ob0 axis angle pos hb htype hmem
    · exact create_camera_pose_miss st name axis angle pos
  · intro st name locations quaternions start_frame framenrs hwf
    constructor
    · intro ob0 hmem hname htype
      subst hname
      have hb : st.byName? ob0.name = some ob0 := by
        rw [Scene.byName?]
        exact find?_key_of_mem_nodup BObj.name st.objects hwf.names_nodup ob0 hmem
      rw [create_cam_trajectory_objIds]
      exact trajCamSetup_objIds_hit st ob0.name ob0 hb htype
    · intro hno
      rw [create_cam_trajectory_objIds]
      exact trajCamSetup_objIds_miss st name hno
  · intro st name coords connect edges hwf
    constructor
    · intro ob0 hmem hname htype k hk
      subst hname
      have hb : st.byName? ob0.name = some ob0 := by
        rw [Scene.byName?]
        exact find?_key_of_mem_nodup BObj.name st.objects hwf.names_nodup ob0 hmem
      exact create_mesh_hit st ob0.name coords connect edges ob0 k hwf hb htype
        hk hmem
    · exact create_mesh_miss st name coords connect edges

theorem wf_sceneCam : WfScene sceneCam := by
  constructor <;> simp [sceneCam, scene0, plainObj, Scene.objIds, Scene.meshIds]

theorem wf_sceneMesh : WfScene sceneMesh := by
  constructor <;> simp [sceneMesh, scene0, plainObj, Scene.objIds, Scene.meshIds]

theorem c10_witness :
    WfScene sceneCam ∧ WfScene sceneMesh
      ∧ ((create_camera_pose sceneCam "Cam" ⟨1, 0, 0⟩ 0 ⟨0, 0, 0⟩).objIds
            = sceneCam.objIds
          ∧ ∃ ob ∈ (create_camera_pose sceneCam "Cam" ⟨1, 0, 0⟩ 0
                ⟨0, 0, 0⟩).objects,
              ob.id = (plainObj 0 "Cam" "CAMERA" false none).id
                ∧ ob.location = ⟨0, 0, 0⟩)
      ∧ (create_cam_trajectory sceneMesh "Cam2" [] [] 1 none).objIds
          = sceneMesh.objIds ++ [sceneMesh.nextId]
      ∧ ((create_mesh sceneMesh "M" [] false none).1.objIds = sceneMesh.objIds
          ∧ 0 ∉ (create_mesh sceneMesh "M" [] false none).1.meshIds
          ∧ sceneMesh.nextMeshId ∈ (create_mesh sceneMesh "M" []
              false none).1.meshIds
          ∧ ∃ ob ∈ (create_mesh sceneMesh "M" [] false none).1.objects,
              ob.id = (plainObj 0 "M" "MESH" false (some 0)).id
                ∧ ob.meshKey = some sceneMesh.nextMeshId) :=
  ⟨wf_sceneCam, wf_sceneMesh,
    (c10_get_or_create.1 sceneCam "Cam" ⟨1, 0, 0⟩ 0 ⟨0, 0, 0⟩ wf_sceneCam).1
      (plainObj 0 "Cam" "CAMERA" false none) (by simp [sceneCam, scene0]) rfl rfl,
    (c10_get_or_create.2.1 sceneMesh "Cam2" [] [] 1 none wf_sceneMesh).2
      (by
        intro ob0 hmem
        simp only [sceneMesh, scene0, List.mem_singleton] at hmem
        subst hmem
        simp [plainObj]),
    (c10_get_or_create.2.2 sceneMesh "M" [] false none wf_sceneMesh).1
      (plainObj 0 "M" "MESH" false (some 0)) (by simp [sceneMesh, scene0])
      rfl rfl 0 rfl⟩

/-! ## C5: the PLY exporter restores selection and active object, and the
temporary mesh is gone -/

theorem updateActiveMesh_objects (s : Scene) (f : BMesh → BMesh) :
    (s.updateActiveMesh f).objects = s.objects := by
  rw [Scene.updateActiveMesh]
  cases hA : s.activeOb with
  | none => rfl
  | some ob => cases hk : ob.meshKey <;> simp [hk]

theorem editmodeToggle_objects (s : Scene) :
    s.editmodeToggle.objects = s.objects := rfl

theorem exportMeshPly_objects (s : Scene) (fn : String) :
    (exportMeshPly s fn).objects = s.objects := rfl

theorem meshSelectAllSelect_objects (s : Scene) :
    (meshSelectAllSelect s).objects = s.objects := rfl

theorem meshDeleteEdgeFace_objects (s : Scene) :
    (meshDeleteEdgeFace s).objects = s.objects := updateActiveMesh_objects s _

theorem meshEdgeFaceAdd_objects (s : Scene) :
    (meshEdgeFaceAdd s).objects = s.objects := updateActiveMesh_objects s _

theorem meshQuadsToTris_objects (s : Scene) :
    (meshQuadsToTris s).objects = s.objects := updateActiveMesh_objects s _

theorem opDeleteSelected_objects (s : Scene) :
    s.opDeleteSelected.objects
      = s.objects.filter (fun ob => !(ob.in_scene && ob.selected)) := rfl

theorem deselectAll_objects (s : Scene) :
    s.deselectAll.objects
      = s.objects.map (fun ob : BObj => { ob with selected := false }) := rfl

/-- The duplicate of one selected, enumerated object. -/
def dupOf (s : Scene) (p : ℕ × BObj) : BObj :=
  { p.2 with
    id := s.nextId + p.1, selected := true,
    meshKey := p.2.meshKey.map (fun _ => s.nextMeshId + p.1) }

theorem opDuplicate_shape (s : Scene) :
    s.opDuplicate.objects
      = s.objects.map (fun ob : BObj => { ob with selected := false })
        ++ s.selectedObs.enum.map (dupOf s) := rfl

theorem copies_props (s : Scene) :
    ∀ c ∈ s.selectedObs.enum.map (dupOf s),
      c.in_scene = true ∧ c.selected = true := by
  intro c hc
  rcases List.mem_map.mp hc with ⟨p, hp, rfl⟩
  refine ⟨?_, rfl⟩
  have hmem : p.2 ∈ s.selectedObs := List.snd_mem_of_mem_enum hp
  rw [Scene.selectedObs] at hmem
  have := List.of_mem_filter hmem
  exact ((Bool.and_eq_true _ _).mp this).1

theorem map_off_map_off (B : List BObj) :
    (B.map (fun ob : BObj => { ob with selected := false })).map
        (fun ob : BObj => { ob with selected := false })
      = B.map (fun ob : BObj => { ob with selected := false }) := by
  rw [List.map_map]
  rfl

theorem selstep_foldl_map_off (l : List (String × BObj)) :
    ∀ s : Scene,
      ((l.foldl (fun s p => { s.selectObj p.2.id with active := some p.2.id })
          s).objects).map (fun ob : BObj => { ob with selected := false })
        = s.objects.map (fun ob : BObj => { ob with selected := false }) := by
  induction l with
  | nil => intro s; rfl
  | cons p l ih =>
      intro s
      rw [List.foldl_cons, ih]
      show (s.objects.map (fun ob => if ob.id = p.2.id
          then ({ ob with selected := true } : BObj) else ob)).map
          (fun ob : BObj => { ob with selected := false })
        = s.objects.map (fun ob : BObj => { ob with selected := false })
      rw [List.map_map]
      apply List.map_congr_left
      intro a _
      by_cases h : a.id = p.2.id <;> simp [Function.comp, h]

theorem selectObj_foldl_objects (ids : List ℕ) :
    ∀ s : Scene, (ids.foldl (fun s i => s.selectObj i) s).objects
      = s.objects.map (fun ob : BObj =>
          if ob.id ∈ ids then { ob with selected := true } else ob) := by
  induction ids with
  | nil => intro s; simp
  | cons i ids ih =>
      intro s
      rw [List.foldl_cons, ih]
      show (s.objects.map (fun ob => if ob.id = i
          then ({ ob with selected := true } : BObj) else ob)).map
          (fun ob : BObj => if ob.id ∈ ids then { ob with selected := true } else ob)
        = _
      rw [List.map_map]
      apply List.map_congr_left
      intro a _
      by_cases h1 : a.id = i <;> by_cases h2 : a.id ∈ ids <;>
        simp [Function.comp, h1, h2]

theorem set_selected_eq (ob : BObj) (b : Bool) (h : ob.selected = b) :
    ({ ob with selected := b } : BObj) = ob := by
  rw [← h]

theorem mem_backup_iff (st : Scene) (hnd : st.objIds.Nodup) (ob : BObj)
    (hob : ob ∈ st.objects) :
    ob.id ∈ st.selectedObs.map (fun b => b.id)
      ↔ (ob.in_scene = true ∧ ob.selected = true) := by
  rw [Scene.objIds] at hnd
  constructor
  · intro h
    rcases List.mem_map.mp h with ⟨b, hbf, hid⟩
    rw [Scene.selectedObs] at hbf
    have hbB : b ∈ st.objects := List.mem_of_mem_filter hbf
    have hbeq : b = ob := List.inj_on_of_nodup_map hnd hbB hob hid
    subst hbeq
    have hpb := List.of_mem_filter hbf
    simp only [Bool.and_eq_true] at hpb
    exact hpb
  · rintro ⟨h1, h2⟩
    refine List.mem_map.mpr ⟨ob, ?_, rfl⟩
    rw [Scene.selectedObs]
    exact List.mem_filter.mpr ⟨hob, by simp [h1, h2]⟩

theorem opJoin_id_of_no_active (s : Scene) (hA : s.active = none) :
    s.opJoin = s := by
  rw [Scene.opJoin, hA]

theorem opJoin_id_of_no_mesh (s : Scene) (a : ℕ) (hA : s.active = some a)
    (hK : (s.getObj? a).bind BObj.meshKey = none) : s.opJoin = s := by
  rw [Scene.opJoin, hA]
  simp only [hK]

theorem opJoin_objects_of_mesh (s : Scene) (a ka : ℕ) (hA : s.active = some a)
    (hK : (s.getObj? a).bind BObj.meshKey = some ka) :
    s.opJoin.objects
      = s.objects.filter (fun ob => ob.id == a || !(ob.in_scene && ob.selected)) := by
  rw [Scene.opJoin, hA]
  simp only [hK]

theorem ply_mid_objects (s : Scene) (filename : String) (B C : List BObj)
    (hshape : s.objects
      = B.map (fun ob : BObj => { ob with selected := false }) ++ C)
    (hC : ∀ c ∈ C, c.in_scene = true ∧ c.selected = true) :
    (Scene.opDeleteSelected (exportMeshPly
        (Scene.editmodeToggle (meshQuadsToTris (meshEdgeFaceAdd
          (meshSelectAllSelect (meshDeleteEdgeFace (meshSelectAllSelect
            (Scene.editmodeToggle
              (if s.selectedObs.length > 1 then s.opJoin else s))))))))
        filename)).objects
      = B.map (fun ob : BObj => { ob with selected := false }) := by
  have hJ : ∃ C', (if s.selectedObs.length > 1 then s.opJoin else s).objects
      = B.map (fun ob : BObj => { ob with selected := false }) ++ C'
        ∧ ∀ c ∈ C', c.in_scene = true ∧ c.selected = true := by
    by_cases hj : s.selectedObs.length > 1
    · rw [if_pos hj]
      rcases hA : s.active with _ | a
      · rw [opJoin_id_of_no_active s hA]
        exact ⟨C, hshape, hC⟩
      · rcases hK : (s.getObj? a).bind BObj.meshKey with _ | ka
        · rw [opJoin_id_of_no_mesh s a hA hK]
          exact ⟨C, hshape, hC⟩
        · refine ⟨C.filter (fun ob => ob.id == a
              || !(ob.in_scene && ob.selected)), ?_, ?_⟩
          · rw [opJoin_objects_of_mesh s a ka hA hK, hshape, List.filter_append]
            congr 1
            apply List.filter_eq_self.mpr
            intro x hx
            rcases List.mem_map.mp hx with ⟨b, _, rfl⟩
            simp
          · intro c hc
            exact hC c (List.mem_of_mem_filter hc)
    · rw [if_neg hj]
      exact ⟨C, hshape, hC⟩
  obtain ⟨C', hC'eq, hC'⟩ := hJ
  rw [opDeleteSelected_objects, exportMeshPly_objects, editmodeToggle_objects,
    meshQuadsToTris_objects, meshEdgeFaceAdd_objects, meshSelectAllSelect_objects,
    meshDeleteEdgeFace_objects, meshSelectAllSelect_objects, editmodeToggle_objects,
    hC'eq, List.filter_append]
  have h1 : (B.map (fun ob : BObj => { ob with selected := false })).filter
      (fun ob => !(ob.in_scene && ob.selected))
      = B.map (fun ob : BObj => { ob with selected := false }) := by
    apply List.filter_eq_self.mpr
    intro x hx
    rcases List.mem_map.mp hx with ⟨b, _, rfl⟩
    simp
  have h2 : C'.filter (fun ob => !(ob.in_scene && ob.selected)) = [] := by
    apply List.filter_eq_nil_iff.mpr
    intro c hc
    simp [(hC' c hc).1, (hC' c hc).2]
  rw [h1, h2, List.append_nil]

/-- C5: after `extract_points_to_ply_file` returns, the set of selected
objects and the active object of the scene are as they were at entry, and
the temporary duplicated (and possibly joined) mesh created for the
export has been deleted from the scene — the scene's object list is
exactly the entry object list. -/
theorem c5_ply_restores (st : Scene) (filename : String) (by_selection : Bool)
    (pre suf : String) (hnd : st.objIds.Nodup)
    (hsel : ∀ ob ∈ st.objects, ob.selected = true → ob.in_scene = true) :
    (extract_points_to_ply_file st filename by_selection pre suf).objects
        = st.objects
      ∧ (extract_points_to_ply_file st filename by_selection pre suf).active
        = st.active := by
  refine ⟨?_, rfl⟩
  simp only [extract_points_to_ply_file]
  rw [show ∀ (X : Scene) (a : Option ℕ),
      ({ X with active := a } : Scene).objects = X.objects from fun X a => rfl]
  rw [selectObj_foldl_objects]
  rw [deselectAll_objects]
  set A := (get_objects st.deselectAll by_selection pre suf).foldl
      (fun s p => { s.selectObj p.2.id with active := some p.2.id })
      st.deselectAll with hAdef
  have hAoff : A.objects.map (fun ob : BObj => { ob with selected := false })
      = st.objects.map (fun ob : BObj => { ob with selected := false }) := by
    rw [hAdef, selstep_foldl_map_off]
    exact map_off_map_off st.objects
  have hshape2 : A.opDuplicate.objects
      = st.objects.map (fun ob : BObj => { ob with selected := false })
        ++ A.selectedObs.enum.map (dupOf A) := by
    rw [opDuplicate_shape, hAoff]
  rw [ply_mid_objects A.opDuplicate filename st.objects
      (A.selectedObs.enum.map (dupOf A)) hshape2 (copies_props A)]
  rw [map_off_map_off, List.map_map]
  conv_rhs => rw [← List.map_id st.objects]
  apply List.map_congr_left
  intro a ha
  by_cases hin : a.in_scene = true ∧ a.selected = true
  · have hidin : a.id ∈ st.selectedObs.map (fun b => b.id) :=
      (mem_backup_iff st hnd a ha).mpr hin
    have hgoal : (if a.id ∈ st.selectedObs.map (fun b => b.id)
        then ({ a with selected := true } : BObj)
        else ({ a with selected := false } : BObj)) = a := by
      rw [if_pos hidin]
      exact set_selected_eq a true hin.2
    exact hgoal
  · have hidnot : ¬ a.id ∈ st.selectedObs.map (fun b => b.id) :=
      fun hm => hin ((mem_backup_iff st hnd a ha).mp hm)
    have hsf : a.selected = false := by
      cases hs : a.selected
      · rfl
      · exact absurd ⟨hsel a ha hs, hs⟩ hin
    have hgoal : (if a.id ∈ st.selectedObs.map (fun b => b.id)
        then ({ a with selected := true } : BObj)
        else ({ a with selected := false } : BObj)) = a := by
      rw [if_neg hidnot]
      exact set_selected_eq a false hsf
    exact hgoal

theorem c5_hnd_sceneMesh : sceneMesh.objIds.Nodup := by
  simp [sceneMesh, scene0, Scene.objIds]

theorem c5_hsel_sceneMesh :
    ∀ ob ∈ sceneMesh.objects, ob.selected = true → ob.in_scene = true := by
  intro ob h
  simp only [sceneMesh, scene0, List.mem_singleton] at h
  subst h
  intro _
  rfl

theorem c5_ply_restores_witness :
    sceneMesh.objIds.Nodup
      ∧ (∀ ob ∈ sceneMesh.objects, ob.selected = true → ob.in_scene = true)
      ∧ (extract_points_to_ply_file sceneMesh "out.ply" false "" "").objects
          = sceneMesh.objects
      ∧ (extract_points_to_ply_file sceneMesh "out.ply" false "" "").active
          = sceneMesh.active :=
  ⟨c5_hnd_sceneMesh, c5_hsel_sceneMesh,
    (c5_ply_restores sceneMesh "out.ply" false "" "" c5_hnd_sceneMesh
      c5_hsel_sceneMesh).1,
    (c5_ply_restores sceneMesh "out.ply" false "" "" c5_hnd_sceneMesh
      c5_hsel_sceneMesh).2⟩

/-! ## C1: the pose round-trip -/

theorem axisAngleToQuat_unit (ax : V3) (hax : ax.sumSq = 1) (an : ℝ) :
    axisAngleToQuat ax an
      = ⟨Real.cos (an / 2), Real.sin (an / 2) * ax.x,
         Real.sin (an / 2) * ax.y, Real.sin (an / 2) * ax.z⟩ := by
  have hn : ax.norm3 = 1 := by rw [V3.norm3, hax, Real.sqrt_one]
  simp [axisAngleToQuat, hn]

theorem q_double_flip (q : Quat) :
    (q * (⟨0, 1, 0, 0⟩ : Quat)) * ⟨0, 1, 0, 0⟩ = ⟨-q.w, -q.x, -q.y, -q.z⟩ := by
  apply Quat.qext_iff' <;> simp

theorem toAxisAngle_negAA (ax : V3) (an : ℝ)
    (h0 : 0 < an) (h2 : an < 2 * π) :
    toAxisAngle ⟨-(Real.cos (an / 2)), -(Real.sin (an / 2) * ax.x),
        -(Real.sin (an / 2) * ax.y), -(Real.sin (an / 2) * ax.z)⟩
      = (⟨-ax.x, -ax.y, -ax.z⟩, 2 * π - an) := by
  have hpi := Real.pi_pos
  have h1 : Real.arccos (-(Real.cos (an / 2))) = π - an / 2 := by
    rw [Real.arccos_neg, Real.arccos_cos (by linarith) (by linarith)]
  have h2s : Real.sin (π - an / 2) = Real.sin (an / 2) := Real.sin_pi_sub _
  have h3 : 0 < Real.sin (an / 2) :=
    Real.sin_pos_of_pos_of_lt_pi (by linarith) (by linarith)
  simp only [toAxisAngle, h1, h2s]
  rw [if_neg (ne_of_gt h3)]
  refine Prod.ext ?_ (by ring)
  apply V3.ext_iff' <;>
    (show -(Real.sin (an / 2) * _) / Real.sin (an / 2) = _;
     rw [neg_div, mul_div_cancel_left₀ _ (ne_of_gt h3)])

theorem apply_neg_eq (q : Quat) (v : V3) :
    (Quat.mk (-q.w) (-q.x) (-q.y) (-q.z)).apply v = q.apply v := by
  apply V3.ext_iff' <;> (simp [Quat.apply, Quat.ofV3, Quat.vec]; ring)

theorem inverted_apply_apply (q : Quat) (h : q.normSq = 1) (v : V3) :
    q.inverted.apply (q.apply v) = v := by
  rw [Quat.inverted, h]
  have h1 : ((1 : ℝ) / 1) • q.conj = q.conj := by
    apply Quat.qext_iff' <;> simp
  rw [h1]
  have hpoly : q.conj.apply (q.apply v)
      = ⟨q.normSq * q.normSq * v.x, q.normSq * q.normSq * v.y,
         q.normSq * q.normSq * v.z⟩ := by
    apply V3.ext_iff' <;>
      (simp [Quat.apply, Quat.ofV3, Quat.vec, Quat.normSq]; ring)
  rw [hpoly, h]
  apply V3.ext_iff' <;> simp

theorem normSq_negAA (ax : V3) (an : ℝ) (hax : ax.sumSq = 1) :
    Quat.normSq ⟨-(Real.cos (an / 2)), -(Real.sin (an / 2) * ax.x),
        -(Real.sin (an / 2) * ax.y), -(Real.sin (an / 2) * ax.z)⟩ = 1 := by
  rw [Quat.normSq]
  rw [V3.sumSq] at hax
  linear_combination Real.sin_sq_add_cos_sq (an / 2)
    + Real.sin (an / 2) ^ 2 * hax

theorem v3_neg_neg (v : V3) : -(-v) = v := by
  apply V3.ext_iff' <;> simp

/-- Full evaluation of the create-then-extract composite on a fresh
camera: `create_camera_pose(name, ax, an, -R⁻¹t)` followed by
`extract_current_pose` yields the rotation vector `(2π - an) • ax` (not
`-an • ax`) and the translation `t`. -/
theorem roundtrip_eval (st : Scene) (name : String) (ax : V3) (an : ℝ) (t : V3)
    (hax : ax.sumSq = 1) (h0 : 0 < an) (h2 : an < 2 * π)
    (hb : st.byName? name = none)
    (hfresh : ∀ ob ∈ st.objects, ob.id < st.nextId) :
    extract_current_pose (create_camera_pose st name ax an
        (-((axisAngleToQuat ax an).apply t)))
      = Except.ok ((((2 : ℝ) * π - an) • ax).toList, t.toList) := by
  rw [Scene.byName?] at hb
  have horig : (st.deselectAll.objects).find?
      (fun ob => ob.id = st.deselectAll.nextId) = none := by
    rw [List.find?_eq_none]
    intro ob hob
    rw [deselectAll_objects] at hob
    rcases List.mem_map.mp hob with ⟨b, hbB, rfl⟩
    simpa using Nat.ne_of_lt (hfresh b hbB)
  have hOb : (create_camera_pose st name ax an
        (-((axisAngleToQuat ax an).apply t))).activeOb
      = some (poseAssign ({ Scene.freshCamera st.deselectAll.nextId with
            name := name }) ax an (-((axisAngleToQuat ax an).apply t))) := by
    simp only [create_camera_pose, Scene.byName?, hb]
    show Scene.getObj? _ st.deselectAll.nextId = _
    rw [Scene.getObj?]
    show ((((st.deselectAll.objects
        ++ [Scene.freshCamera st.deselectAll.nextId]).map
        (fun ob => if ob.id = st.deselectAll.nextId
          then ({ ob with name := name } : BObj) else ob)).map
        (fun ob => if ob.id = st.deselectAll.nextId
          then poseAssign ob ax an (-((axisAngleToQuat ax an).apply t))
          else ob)).find?
        (fun ob => ob.id = st.deselectAll.nextId)) = _
    rw [find?_idf_map_update BObj.id _ (by intro ob; rfl), if_pos rfl]
    rw [find?_idf_map_update BObj.id _ (by intro ob; rfl), if_pos rfl]
    rw [List.find?_append, horig]
    simp [List.find?_cons, Scene.freshCamera]
  have hExtract : extract_current_pose (create_camera_pose st name ax an
        (-((axisAngleToQuat ax an).apply t)))
      = extractPoseOfOb (poseAssign ({ Scene.freshCamera st.deselectAll.nextId
            with name := name }) ax an (-((axisAngleToQuat ax an).apply t))) := by
    rw [extract_current_pose, hOb]
    rfl
  rw [hExtract]
  have hmode : extractObQuat (poseAssign ({ Scene.freshCamera
        st.deselectAll.nextId with name := name }) ax an
        (-((axisAngleToQuat ax an).apply t)))
      = Except.ok (axisAngleToQuat ax an
          * axisAngleToQuat ⟨1, 0, 0⟩ (radians 180)) := rfl
  have hQ : extractQ2 (axisAngleToQuat ax an
        * axisAngleToQuat ⟨1, 0, 0⟩ (radians 180))
      = ⟨-(Real.cos (an / 2)), -(Real.sin (an / 2) * ax.x),
         -(Real.sin (an / 2) * ax.y), -(Real.sin (an / 2) * ax.z)⟩ := by
    rw [extractQ2, q180_value, axisAngleToQuat_unit ax hax an, q_double_flip]
  have hloc : (poseAssign ({ Scene.freshCamera st.deselectAll.nextId with
        name := name }) ax an (-((axisAngleToQuat ax an).apply t))).location
      = -((axisAngleToQuat ax an).apply t) := rfl
  rw [extractPoseOfOb, hmode]
  show Except.ok _ = _
  congr 1
  refine Prod.ext ?_ ?_
  · show [(toAxisAngle (extractQ2 _)).1.x * -(toAxisAngle (extractQ2 _)).2,
        (toAxisAngle (extractQ2 _)).1.y * -(toAxisAngle (extractQ2 _)).2,
        (toAxisAngle (extractQ2 _)).1.z * -(toAxisAngle (extractQ2 _)).2] = _
    rw [hQ, toAxisAngle_negAA ax an h0 h2]
    simp [V3.toList]
    refine ⟨by ring, by ring, by ring⟩
  · show ((extractQ2 _).inverted.apply
        (-(poseAssign ({ Scene.freshCamera st.deselectAll.nextId with
            name := name }) ax an
            (-((axisAngleToQuat ax an).apply t))).location)).toList = _
    rw [hloc, v3_neg_neg, hQ, axisAngleToQuat_unit ax hax an]
    have happ : (Quat.mk (Real.cos (an / 2)) (Real.sin (an / 2) * ax.x)
          (Real.sin (an / 2) * ax.y) (Real.sin (an / 2) * ax.z)).apply t
        = (Quat.mk (-(Real.cos (an / 2))) (-(Real.sin (an / 2) * ax.x))
            (-(Real.sin (an / 2) * ax.y)) (-(Real.sin (an / 2) * ax.z))).apply t :=
      (apply_neg_eq _ t).symm
    rw [happ]
    exact congrArg V3.toList (inverted_apply_apply _ (normSq_negAA ax an hax) t)

theorem sumSq_nonneg (v : V3) : 0 ≤ v.sumSq :=
  add_nonneg (add_nonneg (mul_self_nonneg _) (mul_self_nonneg _))
    (mul_self_nonneg _)

theorem unit_axis_sumSq (v : V3) (h : 0 < v.norm3) :
    ((1 / v.norm3) • v).sumSq = 1 := by
  have hn : v.norm3 ≠ 0 := ne_of_gt h
  have hs : v.norm3 * v.norm3 = v.sumSq := Real.mul_self_sqrt (sumSq_nonneg v)
  have hq : v.sumSq = v.x * v.x + v.y * v.y + v.z * v.z := rfl
  simp only [V3.sumSq, V3.smul_x, V3.smul_y, V3.smul_z]
  field_simp
  linear_combination (-1 : ℝ) * hs - hq

theorem neg_rvec0 : -rvec0 = ⟨π, 0, 0⟩ := by
  apply V3.ext_iff' <;> simp [rvec0]

theorem norm3_pi00 : (V3.mk π 0 0).norm3 = π := by
  rw [V3.norm3]
  have hsq : (V3.mk π 0 0).sumSq = π ^ 2 := by rw [V3.sumSq]; ring
  rw [hsq, Real.sqrt_sq Real.pi_pos.le]

theorem print_pose_angle_rvec0 : print_pose_angle rvec0 = π := by
  rw [print_pose_angle, axisAndAngleFromRvec, neg_rvec0, norm3_pi00]

theorem print_pose_axis_rvec0 : print_pose_axis rvec0 = ⟨1, 0, 0⟩ := by
  rw [print_pose_axis, axisAndAngleFromRvec, neg_rvec0, norm3_pi00]
  apply V3.ext_iff' <;> simp [Real.pi_ne_zero]

/-- C1: the round-trip claim is false as stated.  With the OpenCV pose
`rvec = (-π, 0, 0)`, `tvec = (0, 0, 0)`, `print_pose` derives axis
`(1, 0, 0)`, angle `π` and position `-R⁻¹t`; creating a camera from those
values with `create_camera_pose` and reading it back with
`extract_current_pose` does not return `(rvec, tvec)`: the extracted
rotation vector is `(π, 0, 0)`, not `(-π, 0, 0)`, because
`create_camera_pose` multiplies the pose quaternion by the 180°-about-X
quaternion (line 108) and `extract_current_pose` multiplies by it again
(line 125) instead of dividing, negating the quaternion. -/
theorem c1_roundtrip_counterexample :
    ¬ (extract_current_pose (create_camera_pose scene0 "Cam"
        (print_pose_axis rvec0) (print_pose_angle rvec0)
        (print_pose_pos rvec0 tvec0))
      = Except.ok (rvec0.toList, tvec0.toList)) := by
  intro h
  have hax : (print_pose_axis rvec0).sumSq = 1 := by
    rw [print_pose_axis_rvec0]
    rw [V3.sumSq]
    norm_num
  have h0 : (0 : ℝ) < print_pose_angle rvec0 := by
    rw [print_pose_angle_rvec0]; exact Real.pi_pos
  have h2 : print_pose_angle rvec0 < 2 * π := by
    rw [print_pose_angle_rvec0]; linarith [Real.pi_pos]
  have hrt := roundtrip_eval scene0 "Cam" (print_pose_axis rvec0)
      (print_pose_angle rvec0) tvec0 hax h0 h2 rfl
      (by intro ob hob; simp [scene0] at hob)
  rw [show print_pose_pos rvec0 tvec0
      = -((axisAngleToQuat (print_pose_axis rvec0)
          (print_pose_angle rvec0)).apply tvec0) from rfl] at h
  rw [hrt] at h
  simp only [Except.ok.injEq, Prod.mk.injEq] at h
  obtain ⟨h1, -⟩ := h
  rw [print_pose_angle_rvec0, print_pose_axis_rvec0] at h1
  simp only [V3.toList, V3.smul_x, V3.smul_y, V3.smul_z, rvec0,
    List.cons.injEq] at h1
  obtain ⟨h1, -⟩ := h1
  nlinarith [Real.pi_pos]

/-- C1 (amended): for every camera pose, if a camera is created with
`create_camera_pose(name, axis, angle, pos)` from the values `print_pose`
derives from an OpenCV pose `(rvec, tvec)` (the axis-angle of `-rvec` and
the position `-R⁻¹t`), then `extract_current_pose` on that camera
returns the translation `tvec` exactly, but the rotation vector comes
back as the complementary vector `(2π - angle) • axis` — the same spatial
rotation as `rvec`, with the angle measured the other way around — not as
`rvec` itself (hypotheses: the derived angle `|rvec|` lies strictly
between `0` and `2π`, the name is not yet taken, and existing object ids
are below the scene's id counter). -/
theorem c1_roundtrip_corrected (st : Scene) (name : String) (rvec tvec : V3)
    (h0 : 0 < print_pose_angle rvec) (h2 : print_pose_angle rvec < 2 * π)
    (hb : st.byName? name = none)
    (hfresh : ∀ ob ∈ st.objects, ob.id < st.nextId) :
    extract_current_pose (create_camera_pose st name (print_pose_axis rvec)
        (print_pose_angle rvec) (print_pose_pos rvec tvec))
      = Except.ok ((((2 : ℝ) * π - print_pose_angle rvec)
            • print_pose_axis rvec).toList, tvec.toList) := by
  have hax : (print_pose_axis rvec).sumSq = 1 := unit_axis_sumSq (-rvec) h0
  rw [show print_pose_pos rvec tvec
      = -((axisAngleToQuat (print_pose_axis rvec)
          (print_pose_angle rvec)).apply tvec) from rfl]
  exact roundtrip_eval st name _ _ tvec hax h0 h2 hb hfresh

/-- C1 (amended) witness: the concrete pose `rvec = (-π, 0, 0)`,
`tvec = (0, 0, 0)` in the empty scene satisfies the hypotheses, and the
round trip returns `((π, 0, 0), (0, 0, 0))`. -/
theorem c1_roundtrip_corrected_witness :
    extract_current_pose (create_camera_pose scene0 "Cam"
        (print_pose_axis rvec0) (print_pose_angle rvec0)
        (print_pose_pos rvec0 tvec0))
      = Except.ok ((((2 : ℝ) * π - print_pose_angle rvec0)
            • print_pose_axis rvec0).toList, tvec0.toList) :=
  c1_roundtrip_corrected scene0 "Cam" rvec0 tvec0
    (by rw [print_pose_angle_rvec0]; exact Real.pi_pos)
    (by rw [print_pose_angle_rvec0]; linarith [Real.pi_pos])
    rfl
    (by intro ob hob; simp [scene0] at hob)

end BlenderTools

end
